import Mathlib

/-!
Shallow embedding of the Trello MCP connector (src/main.py) and proofs about
its search/fetch bridging layer.

The embedding models upstream JSON values, the Python dictionary and
iteration semantics the connector relies on (`.get`, subscripting, `in`,
truthiness, iteration — each fallible exactly where Python raises), the
outbound repository client (`trello_get` / `trello_post` / `trello_put`,
which convert transport failures into `{error: ...}` envelopes), and the
tool functions `paginate_search`, `search`, `fetch`, `overview`,
`create_card`, `update_card`, `add_comment`, `move_card`, `archive_card`,
translated line by line from the source.

Tool computations run in a small state-plus-except monad `M` that records
the sequence of upstream requests issued (so that claims about which calls
are or are not performed can be stated) and aborts on an uncaught Python
exception (modelled as `Except.error`).
-/

namespace TrelloSpec

/-- JSON values as returned by the upstream API and built by the connector. -/
inductive Json where
  | null
  | bool (b : Bool)
  | num (n : Int)
  | str (s : String)
  | arr (elems : List Json)
  | obj (fields : List (String × Json))

/-- Python truthiness of a JSON value (`if x:`). -/
def Json.truthy : Json → Bool
  | .null => false
  | .bool b => b
  | .num n => n != 0
  | .str s => s != ""
  | .arr xs => !xs.isEmpty
  | .obj fs => !fs.isEmpty

/-- isinstance(x, dict). -/
def Json.isDict : Json → Bool
  | .obj _ => true
  | _ => false

/-- Python str() conversion, used by f-string interpolation of endpoint paths.
For list and dict arguments the rendering is abbreviated; no claim depends on
those endpoint strings. -/
def pyStr : Json → String
  | .null => "None"
  | .bool true => "True"
  | .bool false => "False"
  | .str s => s
  | .num n => toString n
  | .arr _ => "<list>"
  | .obj _ => "<dict>"

/-- Python str.strip(): remove leading and trailing whitespace. -/
def pyStrip (s : String) : String :=
  String.mk (((s.data.dropWhile Char.isWhitespace).reverse.dropWhile
    Char.isWhitespace).reverse)

/-- Python slicing s[:n] by characters. -/
def pySlice (s : String) (n : Nat) : String :=
  String.mk (s.data.take n)

/-- Membership of a key in a dictionary field list (`k in d` for dicts). -/
def keyMem (k : String) (fs : List (String × Json)) : Bool :=
  fs.any (fun p => p.1 == k)

/-- Python `d.get(k, default)`: only dictionaries have `.get`; any other
receiver raises AttributeError. -/
def pyGetD : Json → String → Json → Except String Json
  | .obj fs, k, d => .ok ((List.lookup k fs).getD d)
  | _, _, _ => .error "AttributeError: get"

/-- Python subscription `d[k]` with a string key: KeyError on a dictionary
missing the key, TypeError on any non-dictionary receiver. -/
def pySubscript : Json → String → Except String Json
  | .obj fs, k =>
    match List.lookup k fs with
    | some v => .ok v
    | none => .error ("KeyError: " ++ k)
  | _, k => .error ("TypeError: subscript " ++ k)

/-- Substring test used by `needle in haystack` on strings. -/
def strContains (hay needle : String) : Bool :=
  if needle = "" then true else (hay.splitOn needle).length != 1

/-- Python `k in x` for a string key: key membership on dictionaries,
element equality on lists, substring on strings, TypeError otherwise. -/
def pyIn (k : String) : Json → Except String Bool
  | .obj fs => .ok (keyMem k fs)
  | .arr xs => .ok (xs.any (fun j => match j with | .str s => s == k | _ => false))
  | .str s => .ok (strContains s k)
  | _ => .error "TypeError: in"

/-- Python iteration `for x in j`: lists yield elements, strings yield
one-character strings, dictionaries yield their keys, everything else
raises TypeError. -/
def pyIter : Json → Except String (List Json)
  | .arr xs => .ok xs
  | .str s => .ok (s.data.map (fun ch => Json.str (String.mk [ch])))
  | .obj fs => .ok (fs.map (fun p => Json.str p.1))
  | _ => .error "TypeError: not iterable"

/-- Sequencing of fallible pure steps (Python expression evaluation order). -/
def eBind {α β : Type} (x : Except String α) (f : α → Except String β) : Except String β :=
  match x with
  | .error e => .error e
  | .ok a => f a

/-- Left-to-right effectful map, the order a Python list comprehension
evaluates its element expressions; the first exception aborts. -/
def mapME (f : Json → Except String Json) : List Json → Except String (List Json)
  | [] => .ok []
  | x :: xs => eBind (f x) (fun y => eBind (mapME f xs) (fun ys => .ok (y :: ys)))

/-- One outbound HTTP request: method, endpoint path, query/form params.
Credential params injected by the helpers are the same on every request and
are omitted. -/
structure Request where
  method : String
  endpoint : String
  params : List (String × Json)

/-- Upstream outcome of one request: a parsed 2xx JSON body, or a transport
or HTTP failure (timeout, non-2xx, connection error). -/
inductive UpResp where
  | success (body : Json)
  | failure (msg : String)

/-- The upstream world: what the remote API answers to each request. -/
def Oracle : Type := Request → UpResp

/-- trello_get: returns the response body on success and an
`{error: msg}` envelope on any failure; never raises. -/
def trello_get (o : Oracle) (endpoint : String) (params : List (String × Json)) : Json :=
  match o ⟨"GET", endpoint, params⟩ with
  | .success body => body
  | .failure msg => .obj [("error", .str msg)]

/-- trello_post, same failure envelope as `trello_get`. -/
def trello_post (o : Oracle) (endpoint : String) (data : List (String × Json)) : Json :=
  match o ⟨"POST", endpoint, data⟩ with
  | .success body => body
  | .failure msg => .obj [("error", .str msg)]

/-- trello_put, same failure envelope as `trello_get`. -/
def trello_put (o : Oracle) (endpoint : String) (data : List (String × Json)) : Json :=
  match o ⟨"PUT", endpoint, data⟩ with
  | .success body => body
  | .failure msg => .obj [("error", .str msg)]

/-- Tool computations: thread the trace of issued requests, abort on an
uncaught Python exception. -/
def M (α : Type) : Type := List Request → Except String (α × List Request)

def mPure {α : Type} (a : α) : M α := fun tr => .ok (a, tr)

def mBind {α β : Type} (x : M α) (f : α → M β) : M β := fun tr =>
  match x tr with
  | .error e => .error e
  | .ok (a, tr') => f a tr'

/-- Lift a pure fallible step (no request issued). -/
def liftE {α : Type} (e : Except String α) : M α := fun tr =>
  match e with
  | .ok a => .ok (a, tr)
  | .error m => .error m

/-- Issue a GET request: record it in the trace, return what trello_get
returns for it. -/
def doGet (o : Oracle) (endpoint : String) (params : List (String × Json)) : M Json :=
  fun tr => .ok (trello_get o endpoint params, tr ++ [⟨"GET", endpoint, params⟩])

/-- Issue a POST request. -/
def doPost (o : Oracle) (endpoint : String) (data : List (String × Json)) : M Json :=
  fun tr => .ok (trello_post o endpoint data, tr ++ [⟨"POST", endpoint, data⟩])

/-- Issue a PUT request. -/
def doPut (o : Oracle) (endpoint : String) (data : List (String × Json)) : M Json :=
  fun tr => .ok (trello_put o endpoint data, tr ++ [⟨"PUT", endpoint, data⟩])

/-- Query params of one search page request (paginate_search, lines 92-99). -/
def searchParams (query : String) (limit : Nat) (page : Nat) : List (String × Json) :=
  [("query", .str query),
   ("modelTypes", .str "cards"),
   ("cards_limit", .num (Int.ofNat limit)),
   ("card_fields", .str "name,url,id,desc,closed"),
   ("cards_page", .num (Int.ofNat page)),
   ("filter", .str "all")]

/-- The request one search page issues. -/
def searchReq (query : String) (limit : Nat) (page : Nat) : Request :=
  ⟨"GET", "search", searchParams query limit page⟩

/-- Body of the `for page in range(max_pages)` loop of paginate_search:
stop on an error envelope, stop on an empty or missing card list, extend the
accumulator, stop when a page is shorter than the page size. -/
def paginate_loop (o : Oracle) (query : String) (limit : Nat) :
    List Nat → List Json → M (List Json)
  | [], acc => mPure acc
  | page :: rest, acc =>
    mBind (doGet o "search" (searchParams query limit page)) (fun data =>
    mBind (liftE (pyIn "error" data)) (fun hasErr =>
    if hasErr then mPure acc
    else
      mBind (liftE (pyGetD data "cards" (.arr []))) (fun cards =>
      if cards.truthy then
        mBind (liftE (pyIter cards)) (fun elems =>
        if elems.length < limit then mPure (acc ++ elems)
        else paginate_loop o query limit rest (acc ++ elems))
      else mPure acc)))

/-- paginate_search (source lines 88-109). -/
def paginate_search (o : Oracle) (query : String) (limit_per_page max_pages : Nat) :
    M (List Json) :=
  paginate_loop o query limit_per_page (List.range max_pages) []

/-- One search result summary (search, lines 156-162): the dictionary
literal built for each card returned by pagination. -/
def mkSummary (c : Json) : Except String Json :=
  eBind (pySubscript c "id") (fun idv =>
  eBind (pyGetD c "name" (.str "No Title")) (fun title =>
  eBind (pyGetD c "desc" .null) (fun descv =>
  eBind (if descv.truthy then
           match descv with
           | .str s => Except.ok (Json.str (pySlice s 200 ++ "..."))
           | _ => Except.error "TypeError: slice"
         else Except.ok (Json.str "")) (fun text =>
  eBind (pyGetD c "url" (.str "")) (fun url =>
  eBind (pyGetD c "closed" (.bool false)) (fun closed =>
  .ok (.obj [("id", idv), ("title", title), ("text", text),
             ("url", url), ("closed", closed)])))))))

/-- search tool (source lines 150-163). -/
def search (o : Oracle) (query : String) : M Json :=
  if pyStrip query = "" then mPure (.obj [("results", .arr [])])
  else
    mBind (paginate_search o query 50 5) (fun cards =>
    mBind (liftE (mapME mkSummary cards)) (fun results =>
    mPure (.obj [("results", .arr results)])))

/-- Field-selection params of the primary card request (fetch, lines 174-180). -/
def fetchCardParams : List (String × Json) :=
  [("fields", .str "name,desc,url,dateLastActivity,idList,idBoard,due,closed"),
   ("checklists", .str "all"),
   ("attachments", .str "true"),
   ("members", .str "true"),
   ("member_fields", .str "fullName,username,avatarUrl")]

def listInfoParams : List (String × Json) := [("fields", .str "name,idBoard")]

def boardInfoParams : List (String × Json) := [("fields", .str "name,url,idOrganization")]

def orgInfoParams : List (String × Json) := [("fields", .str "displayName,name")]

def actionsParams : List (String × Json) :=
  [("filter", .str "commentCard"), ("limit", .num 100)]

/-- One reduced comment entry (fetch, lines 205-210); raises exactly where
the Python expression would (a present but non-dictionary memberCreator or
data value). -/
def commentShape (c : Json) : Except String Json :=
  eBind (pyGetD c "id" .null) (fun idv =>
  eBind (pyGetD c "date" .null) (fun datev =>
  eBind (pyGetD c "memberCreator" (.obj [])) (fun mc =>
  eBind (pyGetD mc "fullName" .null) (fun fullName =>
  eBind (pyGetD c "data" (.obj [])) (fun dataf =>
  eBind (pyGetD dataf "text" (.str "")) (fun text =>
  .ok (.obj [("id", idv), ("date", datev),
             ("memberCreator", fullName), ("text", text)])))))))

/-- Comment handling of fetch (lines 191-193 and 205-210): an error
envelope from the comment feed is replaced by an empty list, then the
comment comprehension keeps dictionary entries and reduces each one.
Both steps are pure; nothing between them in the source can observe the
intermediate value. -/
def commentsStage (commentsRaw : Json) : Except String (List Json) :=
  let comments :=
    match commentsRaw with
    | .obj fs => if keyMem "error" fs then Json.arr [] else commentsRaw
    | _ => commentsRaw
  eBind (pyIter comments) (fun citems => mapME commentShape (citems.filter Json.isDict))

/-- Workspace resolution of fetch (lines 187-189): when the board carries a
truthy idOrganization, look the organization up; otherwise the organization
info stays the empty dictionary. -/
def orgStage (o : Oracle) (board_info : Json) : M Json :=
  mBind (liftE (pyGetD board_info "idOrganization" .null)) (fun idOrg =>
  if idOrg.truthy then
    mBind (liftE (pySubscript board_info "idOrganization")) (fun oid =>
    doGet o ("organizations/" ++ pyStr oid) orgInfoParams)
  else mPure (Json.obj []))

/-- Comment-feed request and return value of fetch (lines 191-219): the
dictionary literal evaluates its entries in source order, so every fallible
lookup is sequenced exactly as Python would evaluate it. -/
def detailRecord (o : Oracle) (card_id : String)
    (card list_info board_info org_info : Json) : M Json :=
  mBind (doGet o ("cards/" ++ card_id ++ "/actions") actionsParams) (fun commentsRaw =>
  mBind (liftE (pyGetD card "id" .null)) (fun cid =>
  mBind (liftE (pyGetD card "name" (.str "No Title"))) (fun title =>
  mBind (liftE (pyGetD card "desc" (.str "No description"))) (fun text =>
  mBind (liftE (pyGetD card "url" (.str ""))) (fun url =>
  mBind (liftE (pyGetD card "due" .null)) (fun due =>
  mBind (liftE (pyGetD card "closed" (.bool false))) (fun closed =>
  mBind (liftE (pyGetD card "members" (.arr []))) (fun members =>
  mBind (liftE (pyGetD card "checklists" (.arr []))) (fun checklists =>
  mBind (liftE (pyGetD card "attachments" (.arr []))) (fun attachments =>
  mBind (liftE (commentsStage commentsRaw)) (fun commentList =>
  mBind (liftE (pyGetD card "dateLastActivity" .null)) (fun lastAct =>
  mBind (liftE (pyGetD list_info "name" (.str ""))) (fun listName =>
  mBind (liftE (pyGetD board_info "name" (.str ""))) (fun boardName =>
  mBind (liftE (pyGetD board_info "url" (.str ""))) (fun boardUrl =>
  mBind (liftE (if org_info.truthy then pyGetD org_info "displayName" (.str "")
                else Except.ok Json.null)) (fun workspace =>
  mPure (.obj
    [("id", cid), ("title", title), ("text", text), ("url", url),
     ("due", due), ("closed", closed), ("members", members),
     ("checklists", checklists), ("attachments", attachments),
     ("comments", .arr commentList),
     ("metadata", .obj
       [("source", .str "trello"), ("lastActivity", lastAct),
        ("list", listName), ("board", boardName), ("boardUrl", boardUrl),
        ("workspace", workspace)])])))))))))))))))))

/-- fetch tool (source lines 168-219), composed from the primary card
lookup, the dependent list and board lookups, the workspace stage and the
final detail record. -/
def fetch (o : Oracle) (card_id : String) : M Json :=
  if pyStrip card_id = "" then mPure (.obj [("error", .str "Missing card_id")])
  else
    mBind (doGet o ("cards/" ++ card_id) fetchCardParams) (fun card =>
    mBind (liftE (pyIn "error" card)) (fun hasErr =>
    if hasErr then
      mBind (liftE (pySubscript card "error")) (fun ev =>
      mPure (.obj [("error", ev)]))
    else
      mBind (liftE (pyGetD card "idList" .null)) (fun idList =>
      mBind (doGet o ("lists/" ++ pyStr idList) listInfoParams) (fun list_info =>
      mBind (liftE (pyGetD card "idBoard" .null)) (fun idBoard =>
      mBind (doGet o ("boards/" ++ pyStr idBoard) boardInfoParams) (fun board_info =>
      mBind (orgStage o board_info) (fun org_info =>
      detailRecord o card_id card list_info board_info org_info)))))))

/-- One lists_data entry (overview, lines 134-141); its dictionary literal
evaluates in source order, `b["name"]` and `b["id"]` may raise KeyError. -/
def overviewEntry (b l : Json) : Except String Json :=
  eBind (pyGetD b "idOrganization" .null) (fun wsId =>
  eBind (pySubscript b "name") (fun bname =>
  eBind (pySubscript b "id") (fun bid =>
  eBind (pyGetD l "id" .null) (fun lid =>
  eBind (pyGetD l "name" .null) (fun lname =>
  eBind (pyGetD l "closed" (.bool false)) (fun lclosed =>
  .ok (.obj [("workspaceId", wsId), ("board", bname), ("boardId", bid),
             ("listId", lid), ("list", lname), ("closed", lclosed)])))))))

/-- The inner `for l in lists` loop of overview: entries are appended one by
one; the first exception is caught by the surrounding try, keeping the
entries appended so far. -/
def collectEntries (b : Json) : List Json → List Json
  | [] => []
  | l :: rest =>
    match overviewEntry b l with
    | .ok e => e :: collectEntries b rest
    | .error _ => []

/-- Processing of one board in overview (lines 130-143): skip non-dict
entries and entries without an id; the try swallows any exception raised
after the lists request was issued. -/
def overviewBoard (o : Oracle) (b : Json) : M (List Json) :=
  if b.isDict && (match b with | .obj fs => keyMem "id" fs | _ => false) then
    mBind (liftE (pySubscript b "id")) (fun bid =>
    mBind (doGet o ("boards/" ++ pyStr bid ++ "/lists")
             [("fields", .str "name,id,closed")]) (fun lists =>
    match pyIter lists with
    | .error _ => mPure []
    | .ok litems => mPure (collectEntries b litems)))
  else mPure []

def overviewLoop (o : Oracle) : List Json → List Json → M (List Json)
  | [], acc => mPure acc
  | b :: rest, acc =>
    mBind (overviewBoard o b) (fun es => overviewLoop o rest (acc ++ es))

/-- overview tool (source lines 122-145). -/
def overview (o : Oracle) : M Json :=
  mBind (doGet o "members/me/organizations" [("fields", .str "displayName,name,id")])
    (fun workspaces =>
  mBind (doGet o "members/me/boards" [("fields", .str "name,id,closed,idOrganization,url")])
    (fun boards =>
  mBind (liftE (pyIter boards)) (fun bitems =>
  mBind (overviewLoop o bitems []) (fun lists_data =>
  mPure (.obj [("workspaces", workspaces), ("boards", boards),
               ("lists", .arr lists_data)])))))

/-- create_card tool (lines 224-229). -/
def create_card (o : Oracle) (list_id name desc : String) : M Json :=
  doPost o "cards" [("idList", .str list_id), ("name", .str name), ("desc", .str desc)]

/-- update_card tool (lines 231-240): a field enters the PUT body only when
its argument is truthy (name, desc, due) or not None (closed, serialized as
a lowercase boolean string). -/
def update_card (o : Oracle) (card_id : String) (name desc due : Option String)
    (closed : Option Bool) : M Json :=
  let ud0 : List (String × Json) := []
  let ud1 := match name with
    | some s => if s = "" then ud0 else ud0 ++ [("name", Json.str s)]
    | none => ud0
  let ud2 := match desc with
    | some s => if s = "" then ud1 else ud1 ++ [("desc", Json.str s)]
    | none => ud1
  let ud3 := match due with
    | some s => if s = "" then ud2 else ud2 ++ [("due", Json.str s)]
    | none => ud2
  let ud4 := match closed with
    | some b => ud3 ++ [("closed", Json.str (if b then "true" else "false"))]
    | none => ud3
  doPut o ("cards/" ++ card_id) ud4

/-- add_comment tool (lines 242-246). -/
def add_comment (o : Oracle) (card_id text : String) : M Json :=
  doPost o ("cards/" ++ card_id ++ "/actions/comments") [("text", .str text)]

/-- move_card tool (lines 248-252). -/
def move_card (o : Oracle) (card_id list_id : String) : M Json :=
  doPut o ("cards/" ++ card_id) [("idList", .str list_id)]

/-- archive_card tool (lines 254-258). -/
def archive_card (o : Oracle) (card_id : String) : M Json :=
  doPut o ("cards/" ++ card_id ++ "/closed") [("value", .str "true")]

/-! Support definitions for the statements: field extraction, page shapes,
well-formedness of upstream bodies, and concrete oracles for witnesses and
counterexamples. -/

/-- Field lookup on a JSON object (none on other values). -/
def jLookup : Json → String → Option Json
  | .obj fs, k => List.lookup k fs
  | _, _ => none

/-- Lookup of a field inside the metadata object of a detail record. -/
def metaField (fs : List (String × Json)) (k : String) : Option Json :=
  match List.lookup "metadata" fs with
  | some (Json.obj mfs) => List.lookup k mfs
  | _ => none

/-- The detail record fetch builds from an object-shaped card, list and
board response, a reduced comment list and a workspace value: the
characterization target of the detailRecord stage. -/
def detailObj (cfs lfs bfs : List (String × Json)) (cl : List Json) (w : Json) : Json :=
  Json.obj
    [("id", (List.lookup "id" cfs).getD Json.null),
     ("title", (List.lookup "name" cfs).getD (Json.str "No Title")),
     ("text", (List.lookup "desc" cfs).getD (Json.str "No description")),
     ("url", (List.lookup "url" cfs).getD (Json.str "")),
     ("due", (List.lookup "due" cfs).getD Json.null),
     ("closed", (List.lookup "closed" cfs).getD (Json.bool false)),
     ("members", (List.lookup "members" cfs).getD (Json.arr [])),
     ("checklists", (List.lookup "checklists" cfs).getD (Json.arr [])),
     ("attachments", (List.lookup "attachments" cfs).getD (Json.arr [])),
     ("comments", Json.arr cl),
     ("metadata", Json.obj
       [("source", Json.str "trello"),
        ("lastActivity", (List.lookup "dateLastActivity" cfs).getD Json.null),
        ("list", (List.lookup "name" lfs).getD (Json.str "")),
        ("board", (List.lookup "name" bfs).getD (Json.str "")),
        ("boardUrl", (List.lookup "url" bfs).getD (Json.str "")),
        ("workspace", w)])]

/-- The primary card request issued by fetch. -/
def cardReq (card_id : String) : Request :=
  ⟨"GET", "cards/" ++ card_id, fetchCardParams⟩

/-- The comment-feed request issued by fetch. -/
def actionsReq (card_id : String) : Request :=
  ⟨"GET", "cards/" ++ card_id ++ "/actions", actionsParams⟩

/-- The card list carried by a well-formed successful search page: the body
is an object without an error key whose cards field is a list. -/
def pageItems : UpResp → Option (List Json)
  | .success (.obj fs) =>
    if keyMem "error" fs then none
    else
      match List.lookup "cards" fs with
      | some (.arr xs) => some xs
      | _ => none
  | _ => none

/-- Number of card items one page response contributes to the accumulator
when pagination processes it (0 when the page stops pagination anyway). -/
def respItemCount : UpResp → Nat
  | .success body =>
    match pyGetD body "cards" (.arr []) with
    | .ok cards =>
      match pyIter cards with
      | .ok xs => xs.length
      | .error _ => 0
    | .error _ => 0
  | .failure _ => 0

/-- Concatenation of the pages indexed by `idx`. -/
def concatSeg (cs : Nat → List Json) (idx : List Nat) : List Json :=
  idx.foldr (fun i r => cs i ++ r) []

/-- A card object the summary construction of search can process without
raising: it has an id, and its description is a string or absent or falsy. -/
def cardOK : Json → Bool
  | .obj fs =>
    (List.lookup "id" fs).isSome &&
      (match List.lookup "desc" fs with
       | some (Json.str _) => true
       | some j => !j.truthy
       | none => true)
  | _ => false

/-- A response whose envelope-or-body is a dictionary, so that dictionary
operations on what trello_get returns cannot raise. -/
def respObjOrFailB : UpResp → Bool
  | .success (.obj _) => true
  | .failure _ => true
  | _ => false

/-- A comment entry the comment reduction of fetch can process without
raising: memberCreator and data are objects when present. -/
def commentOK : Json → Bool
  | .obj fs =>
    (match List.lookup "memberCreator" fs with
     | some (Json.obj _) => true
     | some _ => false
     | none => true)
    && (match List.lookup "data" fs with
        | some (Json.obj _) => true
        | some _ => false
        | none => true)
  | _ => true

/-- A comment-feed response fetch can process without raising. -/
def commentsRespOK : UpResp → Bool
  | .failure _ => true
  | .success (Json.arr xs) => xs.all commentOK
  | .success (Json.obj _) => true
  | .success (Json.str _) => true
  | _ => false

/-- A comment-feed body (or failure envelope) whose comment handling cannot
raise. -/
def commentsBodyOK : Json → Bool
  | Json.arr xs => xs.all commentOK
  | Json.obj _ => true
  | Json.str _ => true
  | _ => false

/-- A search page response search can process without raising. -/
def searchRespOK : UpResp → Bool
  | .failure _ => true
  | .success (Json.obj fs) =>
    if keyMem "error" fs then true
    else
      match List.lookup "cards" fs with
      | none => true
      | some (Json.arr xs) => xs.all cardOK
      | some j => !j.truthy
  | _ => false

/-- A response overview can iterate without raising. -/
def iterableResp : UpResp → Bool
  | .failure _ => true
  | .success (Json.arr _) => true
  | .success (Json.obj _) => true
  | .success (Json.str _) => true
  | _ => false

/-- Upstream whose only successful answer is search page 0 with a single
card holding a 5-character description: exercises the summary truncation. -/
def c1o : Oracle := fun r =>
  match r.params with
  | [("query", _), _, _, _, ("cards_page", Json.num 0), _] =>
    .success (Json.obj [("cards", Json.arr
      [Json.obj [("id", Json.str "1"), ("desc", Json.str "short")]])])
  | _ => .failure "down"

/-- Upstream whose search page 0 contains one card object without an id. -/
def c9o : Oracle := fun r =>
  match r.params with
  | [("query", _), _, _, _, ("cards_page", Json.num 0), _] =>
    .success (Json.obj [("cards", Json.arr [Json.obj []])])
  | _ => .failure "down"

/-- Field list of a well-formed card body used by witnesses of the fetch
claims. -/
def wCardFs : List (String × Json) :=
  [("id", Json.str "abc"), ("name", Json.str "T"), ("desc", Json.str "D"),
   ("idList", Json.str "L1"), ("idBoard", Json.str "B1")]

/-- A well-formed card body used by witnesses of the fetch claims. -/
def wCardBody : Json := Json.obj wCardFs

/-- Field list of a board response carrying a workspace id. -/
def wBoardFs : List (String × Json) :=
  [("name", Json.str "My Board"), ("url", Json.str "u"),
   ("idOrganization", Json.str "W1")]

/-- Upstream for the C3 witness: card, list, board and organization lookups
succeed (responses keyed on their field-selection params), the comment feed
and everything else fails. -/
def c3o : Oracle := fun r =>
  match r.params with
  | [("fields", Json.str "name,idBoard")] =>
    .success (.obj [("name", Json.str "My List")])
  | [("fields", Json.str "name,url,idOrganization")] =>
    .success (.obj wBoardFs)
  | [("fields", Json.str "displayName,name")] =>
    .success (.obj [("displayName", Json.str "WS")])
  | [("fields", Json.str "name,desc,url,dateLastActivity,idList,idBoard,due,closed"), _, _, _, _] =>
    .success wCardBody
  | _ => .failure "down"

/-- Upstream for the first C7 scenario: the card lookup succeeds, the board
lookup succeeds without a workspace id, the list lookup and comment feed
fail. -/
def c7boardFs : List (String × Json) :=
  [("name", Json.str "My Board"), ("url", Json.str "u")]

def c7oA : Oracle := fun r =>
  match r.params with
  | [("fields", Json.str "name,url,idOrganization")] =>
    .success (.obj c7boardFs)
  | [("fields", Json.str "name,desc,url,dateLastActivity,idList,idBoard,due,closed"), _, _, _, _] =>
    .success wCardBody
  | _ => .failure "down"

/-- Upstream for the second C7 scenario: only the card lookup succeeds,
every dependent lookup fails. -/
def c7oB : Oracle := fun r =>
  match r.params with
  | [("fields", Json.str "name,desc,url,dateLastActivity,idList,idBoard,due,closed"), _, _, _, _] =>
    .success wCardBody
  | _ => .failure "down"

/-- Upstream for the third C7 scenario: card and board lookups succeed, the
board carries a workspace id, and the organization lookup fails. -/
def c7oC : Oracle := fun r =>
  match r.params with
  | [("fields", Json.str "name,url,idOrganization")] =>
    .success (.obj wBoardFs)
  | [("fields", Json.str "name,desc,url,dateLastActivity,idList,idBoard,due,closed"), _, _, _, _] =>
    .success wCardBody
  | _ => .failure "down"

/-- A full search page of 50 identical well-formed cards. -/
def fullCards : List Json := List.replicate 50 (Json.obj [("id", Json.str "x")])

/-- Upstream for the C6 witness: search page 0 is a full page, every other
request fails. -/
def c6o : Oracle := fun r =>
  match r.params with
  | [("query", _), _, _, _, ("cards_page", Json.num 0), _] =>
    .success (Json.obj [("cards", Json.arr fullCards)])
  | _ => .failure "down"

/-- Three well-formed cards, a page shorter than the page size. -/
def threeCards : List Json :=
  [Json.obj [("id", Json.str "a")], Json.obj [("id", Json.str "b")],
   Json.obj [("id", Json.str "c")]]

/-- Upstream for the C4 witness: search page 0 returns three cards. -/
def c4o : Oracle := fun r =>
  match r.params with
  | [("query", _), _, _, _, ("cards_page", Json.num 0), _] =>
    .success (Json.obj [("cards", Json.arr threeCards)])
  | _ => .failure "down"

/-- Upstream that fails every request. -/
def allFailO : Oracle := fun _ => .failure "down"

/-- The three summaries search builds from threeCards. -/
def threeSummaries : List Json :=
  [Json.obj [("id", Json.str "a"), ("title", Json.str "No Title"),
             ("text", Json.str ""), ("url", Json.str ""),
             ("closed", Json.bool false)],
   Json.obj [("id", Json.str "b"), ("title", Json.str "No Title"),
             ("text", Json.str ""), ("url", Json.str ""),
             ("closed", Json.bool false)],
   Json.obj [("id", Json.str "c"), ("title", Json.str "No Title"),
             ("text", Json.str ""), ("url", Json.str ""),
             ("closed", Json.bool false)]]

/-! Helper lemmas about the dictionary primitives. -/

theorem lookup_of_keyMem {k : String} {fs : List (String × Json)}
    (h : keyMem k fs = true) : ∃ v, List.lookup k fs = some v := by
  induction fs with
  | nil => simp [keyMem] at h
  | cons p rest ih =>
    rcases p with ⟨a, b⟩
    cases hak : (k == a) with
    | true => exact ⟨b, by simp only [List.lookup, hak]⟩
    | false =>
      have hak' : (a == k) = false := by
        rw [beq_eq_false_iff_ne] at hak ⊢
        exact fun he => hak he.symm
      have h' : keyMem k rest = true := by
        simp only [keyMem, List.any_cons, hak', Bool.false_or] at h
        exact h
      rcases ih h' with ⟨v, hv⟩
      exact ⟨v, by simp only [List.lookup, hak, hv]⟩

theorem lookup_of_keyMem_false {k : String} {fs : List (String × Json)}
    (h : keyMem k fs = false) : List.lookup k fs = none := by
  induction fs with
  | nil => rfl
  | cons p rest ih =>
    rcases p with ⟨a, b⟩
    simp only [keyMem, List.any_cons, Bool.or_eq_false_iff] at h
    have hka : (k == a) = false := by
      have h1 := h.1
      rw [beq_eq_false_iff_ne] at h1 ⊢
      exact fun he => h1 he.symm
    simp only [List.lookup, hka, ih h.2]

theorem lookup_some_of_getD_truthy {k : String} {fs : List (String × Json)}
    (h : ((List.lookup k fs).getD Json.null).truthy = true) :
    List.lookup k fs = some ((List.lookup k fs).getD Json.null) := by
  cases hl : List.lookup k fs with
  | none => rw [hl] at h; simp [Option.getD, Json.truthy] at h
  | some v => simp [hl]

theorem mapME_length (f : Json → Except String Json) :
    ∀ (xs ys : List Json), mapME f xs = .ok ys → ys.length = xs.length := by
  intro xs
  induction xs with
  | nil => intro ys h; simp [mapME] at h; simp [← h]
  | cons x rest ih =>
    intro ys h
    simp only [mapME, eBind] at h
    cases hx : f x with
    | error e => rw [hx] at h; exact absurd h (by simp)
    | ok y =>
      rw [hx] at h
      cases hr : mapME f rest with
      | error e => rw [hr] at h; exact absurd h (by simp)
      | ok ys' =>
        rw [hr] at h
        cases h
        simp [ih ys' hr]

theorem mapME_ok_of_all (f : Json → Except String Json) (P : Json → Bool)
    (hf : ∀ c, P c = true → ∃ s, f c = .ok s) :
    ∀ xs : List Json, xs.all P = true → ∃ ys, mapME f xs = .ok ys := by
  intro xs
  induction xs with
  | nil => intro _; exact ⟨[], rfl⟩
  | cons x rest ih =>
    intro h
    simp only [List.all_cons, Bool.and_eq_true] at h
    have hx : P x = true := h.1
    have hr : rest.all P = true := h.2
    rcases hf x hx with ⟨y, hy⟩
    rcases ih hr with ⟨ys, hys⟩
    exact ⟨y :: ys, by simp [mapME, eBind, hy, hys]⟩

/-! Claim C8: empty inputs short-circuit without upstream calls. -/

/-- C8: for every empty or whitespace-only query, search returns the empty
result list without issuing any upstream request, and for every empty or
whitespace-only card id, fetch returns an error envelope without issuing
any upstream request; both return normally, no exception escapes. -/
theorem C8 (o : Oracle) (q cid : String) (hq : pyStrip q = "") (hid : pyStrip cid = "") :
    search o q [] = Except.ok (Json.obj [("results", Json.arr [])], [])
    ∧ fetch o cid [] = Except.ok (Json.obj [("error", Json.str "Missing card_id")], []) := by
  constructor
  · unfold search
    rw [if_pos hq]
    rfl
  · unfold fetch
    rw [if_pos hid]
    rfl

/-- C8 witness: concrete empty and whitespace-only inputs. -/
theorem C8_witness :
    search allFailO "" [] = Except.ok (Json.obj [("results", Json.arr [])], [])
    ∧ fetch allFailO "  " [] =
        Except.ok (Json.obj [("error", Json.str "Missing card_id")], []) :=
  C8 allFailO "" "  " (by decide) (by decide)

/-! Claim C2: a failing primary card lookup is terminal. -/

/-- C2: when the primary card lookup fails, fetch returns the error
envelope at once and the request trace holds exactly the one card request:
none of the dependent list, board, workspace or comment requests is ever
issued. -/
theorem C2 (o : Oracle) (card_id m : String)
    (hne : pyStrip card_id ≠ "")
    (hfail : o (cardReq card_id) = .failure m) :
    fetch o card_id [] =
      Except.ok (Json.obj [("error", Json.str m)], [cardReq card_id]) := by
  unfold fetch
  rw [if_neg hne]
  have hfail' : o ⟨"GET", "cards/" ++ card_id, fetchCardParams⟩ = .failure m := hfail
  simp [mBind, doGet, trello_get, hfail', liftE, pyIn, keyMem, pySubscript, mPure,
        cardReq, List.lookup]

/-- C2 witness: a concrete card id against an upstream that fails the card
request. -/
theorem C2_witness :
    fetch allFailO "abc" [] =
      Except.ok (Json.obj [("error", Json.str "down")], [cardReq "abc"]) :=
  C2 allFailO "abc" "down" (by decide) rfl

/-! Claim C1: summary text truncation. -/

/-- C1 counterexample: a card with the 5-character description short is
summarized with text short followed by the ellipsis marker, although the
claim requires descriptions of at most 200 characters to be returned
unmodified with no marker. -/
theorem C1_counterexample :
    search c1o "q" [] =
      Except.ok (Json.obj [("results", Json.arr
        [Json.obj [("id", Json.str "1"), ("title", Json.str "No Title"),
                   ("text", Json.str "short..."), ("url", Json.str ""),
                   ("closed", Json.bool false)]])], [searchReq "q" 50 0])
    ∧ ("short" : String).length ≤ 200
    ∧ ("short..." : String) ≠ "short" :=
  ⟨rfl, by decide, by decide⟩

/-- C1 amended: for every card whose summary construction succeeds, the
text field is the empty string whenever the description is missing or
falsy, and equals the first 200 characters of the description followed by
the ellipsis marker whenever the description is a non-empty string —
including descriptions of 200 characters or fewer. -/
theorem C1_amended (c out : Json) (h : mkSummary c = Except.ok out) :
    ((∀ d, jLookup c "desc" = some d → d.truthy = false) →
       jLookup out "text" = some (Json.str ""))
    ∧ (∀ d : String, jLookup c "desc" = some (Json.str d) → d ≠ "" →
       jLookup out "text" = some (Json.str (pySlice d 200 ++ "..."))) := by
  cases c with
  | obj fs =>
    simp only [mkSummary, eBind, pySubscript] at h
    cases hid : List.lookup "id" fs with
    | none => rw [hid] at h; exact absurd h (by simp)
    | some idv =>
      rw [hid] at h
      simp only [pyGetD] at h
      cases hd : List.lookup "desc" fs with
      | none =>
        rw [hd] at h
        simp only [Option.getD, Json.truthy] at h
        cases h
        constructor
        · intro _; rfl
        · intro d hcon; rw [jLookup] at hcon; rw [hd] at hcon; exact absurd hcon (by simp)
      | some v =>
        rw [hd] at h
        simp only [Option.getD] at h
        cases htr : v.truthy with
        | false =>
          rw [htr] at h
          simp only [Bool.false_eq_true, if_false] at h
          cases h
          constructor
          · intro _; rfl
          · intro d hlk hdne
            rw [jLookup, hd] at hlk
            cases hlk
            rw [Json.truthy] at htr
            simp [hdne] at htr
        | true =>
          rw [htr] at h
          simp only [if_true] at h
          cases v with
          | str s =>
            cases h
            constructor
            · intro hall
              have := hall (Json.str s) (by rw [jLookup, hd])
              rw [this] at htr
              cases htr
            · intro d hlk hdne
              rw [jLookup, hd] at hlk
              cases hlk
              rfl
          | null => exact absurd h (by simp)
          | bool b => exact absurd h (by simp)
          | num n => exact absurd h (by simp)
          | arr xs => exact absurd h (by simp)
          | obj fs2 => exact absurd h (by simp)
  | null => exact absurd h (by simp [mkSummary, eBind, pySubscript])
  | bool b => exact absurd h (by simp [mkSummary, eBind, pySubscript])
  | num n => exact absurd h (by simp [mkSummary, eBind, pySubscript])
  | str s => exact absurd h (by simp [mkSummary, eBind, pySubscript])
  | arr xs => exact absurd h (by simp [mkSummary, eBind, pySubscript])

/-- C1 amended witness: a concrete card with a short description. -/
theorem C1_amended_witness :
    ((∀ d, jLookup (Json.obj [("id", Json.str "1"), ("desc", Json.str "abc")]) "desc"
         = some d → d.truthy = false) →
       jLookup (Json.obj [("id", Json.str "1"), ("title", Json.str "No Title"),
                          ("text", Json.str "abc..."), ("url", Json.str ""),
                          ("closed", Json.bool false)]) "text" = some (Json.str ""))
    ∧ (∀ d : String,
         jLookup (Json.obj [("id", Json.str "1"), ("desc", Json.str "abc")]) "desc"
           = some (Json.str d) → d ≠ "" →
         jLookup (Json.obj [("id", Json.str "1"), ("title", Json.str "No Title"),
                            ("text", Json.str "abc..."), ("url", Json.str ""),
                            ("closed", Json.bool false)]) "text"
           = some (Json.str (pySlice d 200 ++ "..."))) :=
  C1_amended (Json.obj [("id", Json.str "1"), ("desc", Json.str "abc")])
    (Json.obj [("id", Json.str "1"), ("title", Json.str "No Title"),
               ("text", Json.str "abc..."), ("url", Json.str ""),
               ("closed", Json.bool false)]) rfl

/-! Claim C10: update_card field selection. -/

/-- C10: update_card issues one PUT whose body contains the name, desc and
due fields exactly when their arguments are truthy (non-None and non-empty)
and the closed field exactly when its argument is not None, serialized as a
lowercase boolean string; in particular closed = false is sent as the
string false and empty strings send no update for their field. -/
theorem C10 (o : Oracle) (card_id : String) (name desc due : Option String)
    (closed : Option Bool) :
    ∃ body : List (String × Json),
      update_card o card_id name desc due closed [] =
        Except.ok (trello_put o ("cards/" ++ card_id) body,
                   [⟨"PUT", "cards/" ++ card_id, body⟩])
      ∧ List.lookup "name" body
          = (name.bind fun s => if s = "" then none else some (Json.str s))
      ∧ List.lookup "desc" body
          = (desc.bind fun s => if s = "" then none else some (Json.str s))
      ∧ List.lookup "due" body
          = (due.bind fun s => if s = "" then none else some (Json.str s))
      ∧ List.lookup "closed" body
          = (closed.map fun b => Json.str (if b then "true" else "false")) := by
  refine ⟨_, rfl, ?_, ?_, ?_, ?_⟩ <;>
    rcases name with _ | n <;> rcases desc with _ | d <;> rcases due with _ | u <;>
    rcases closed with _ | b <;>
    simp only [update_card, Option.bind, Option.map] <;>
    (try split_ifs) <;>
    simp_all [List.lookup_cons]

/-! Evaluation lemmas for the tool monad. -/

theorem mBind_liftE {α β : Type} (e : Except String α) (f : α → M β) (tr : List Request) :
    mBind (liftE e) f tr =
      (match e with
       | .error m => .error m
       | .ok a => f a tr) := by
  cases e <;> rfl

theorem mBind_doGet {β : Type} (o : Oracle) (e : String) (ps : List (String × Json))
    (f : Json → M β) (tr : List Request) :
    mBind (doGet o e ps) f tr = f (trello_get o e ps) (tr ++ [⟨"GET", e, ps⟩]) := rfl

/-! Pagination step lemmas. -/

theorem pageItems_inv {r : UpResp} {xs : List Json} (h : pageItems r = some xs) :
    ∃ fs, r = .success (.obj fs) ∧ keyMem "error" fs = false
      ∧ List.lookup "cards" fs = some (.arr xs) := by
  cases r with
  | failure m => simp [pageItems] at h
  | success body =>
    cases body with
    | obj fs =>
      refine ⟨fs, rfl, ?_⟩
      simp only [pageItems] at h
      cases hkm : keyMem "error" fs with
      | true => rw [hkm] at h; simp at h
      | false =>
        rw [hkm] at h
        simp only [Bool.false_eq_true, if_false] at h
        refine ⟨rfl, ?_⟩
        cases hlk : List.lookup "cards" fs with
        | none => rw [hlk] at h; simp at h
        | some v =>
          rw [hlk] at h
          cases v <;> simp_all
    | null => simp [pageItems] at h
    | bool b => simp [pageItems] at h
    | num n => simp [pageItems] at h
    | str s => simp [pageItems] at h
    | arr ys => simp [pageItems] at h

theorem loop_step_err (o : Oracle) (q : String) (limit p : Nat) (rest : List Nat)
    (acc : List Json) (tr : List Request) (m : String)
    (h : o (searchReq q limit p) = .failure m) :
    paginate_loop o q limit (p :: rest) acc tr
      = .ok (acc, tr ++ [searchReq q limit p]) := by
  have h' : o ⟨"GET", "search", searchParams q limit p⟩ = .failure m := h
  rw [paginate_loop, mBind_doGet]
  simp [trello_get, h', mBind_liftE, pyIn, keyMem, mPure, searchReq]

theorem loop_step_short (o : Oracle) (q : String) (limit p : Nat) (rest : List Nat)
    (acc : List Json) (tr : List Request) (xs : List Json)
    (h : pageItems (o (searchReq q limit p)) = some xs)
    (hshort : xs.length < limit) :
    paginate_loop o q limit (p :: rest) acc tr
      = .ok (acc ++ xs, tr ++ [searchReq q limit p]) := by
  rcases pageItems_inv h with ⟨fs, hr, hkm, hlk⟩
  have hr' : o ⟨"GET", "search", searchParams q limit p⟩ = .success (.obj fs) := hr
  rw [paginate_loop, mBind_doGet]
  rcases eq_or_ne xs [] with he | he
  · subst he
    simp [trello_get, hr', mBind_liftE, pyIn, hkm, pyGetD, hlk, Json.truthy,
          mPure, searchReq]
  · have htr : (Json.arr xs).truthy = true := by simp [Json.truthy, he]
    simp [trello_get, hr', mBind_liftE, pyIn, hkm, pyGetD, hlk, htr, pyIter,
          hshort, mPure, searchReq]

theorem loop_step_full (o : Oracle) (q : String) (limit p : Nat) (rest : List Nat)
    (acc : List Json) (tr : List Request) (xs : List Json)
    (h : pageItems (o (searchReq q limit p)) = some xs)
    (hfull : limit ≤ xs.length) (hpos : 0 < limit) :
    paginate_loop o q limit (p :: rest) acc tr
      = paginate_loop o q limit rest (acc ++ xs) (tr ++ [searchReq q limit p]) := by
  rcases pageItems_inv h with ⟨fs, hr, hkm, hlk⟩
  have hr' : o ⟨"GET", "search", searchParams q limit p⟩ = .success (.obj fs) := hr
  have hne : xs ≠ [] := by
    intro he
    subst he
    simp at hfull
    omega
  have htr : (Json.arr xs).truthy = true := by simp [Json.truthy, hne]
  have hnl : ¬ (xs.length < limit) := by omega
  rw [paginate_loop, mBind_doGet]
  simp [trello_get, hr', mBind_liftE, pyIn, hkm, pyGetD, hlk, htr, pyIter,
        hnl, mPure, searchReq]

theorem foldr_concat_init (cs : Nat → List Json) (l : List Nat) (b : List Json) :
    List.foldr (fun i r => cs i ++ r) b l = concatSeg cs l ++ b := by
  induction l with
  | nil => simp [concatSeg]
  | cons x rest ih => simp [concatSeg] at ih ⊢; simp [ih]

theorem concatSeg_append (cs : Nat → List Json) (l1 l2 : List Nat) :
    concatSeg cs (l1 ++ l2) = concatSeg cs l1 ++ concatSeg cs l2 := by
  induction l1 with
  | nil => simp [concatSeg]
  | cons x rest ih => simp [concatSeg] at ih ⊢; simp [ih]

theorem loop_full_segment (o : Oracle) (q : String) (limit : Nat) (hpos : 0 < limit)
    (cs : Nat → List Json) :
    ∀ (k a : Nat) (rest : List Nat) (acc : List Json) (tr : List Request),
    (∀ i, a ≤ i → i < a + k →
        pageItems (o (searchReq q limit i)) = some (cs i) ∧ limit ≤ (cs i).length) →
    paginate_loop o q limit (List.range' a k ++ rest) acc tr
      = paginate_loop o q limit rest (acc ++ concatSeg cs (List.range' a k))
          (tr ++ (List.range' a k).map (searchReq q limit)) := by
  intro k
  induction k with
  | zero => intro a rest acc tr _; simp [List.range', concatSeg]
  | succ n ih =>
    intro a rest acc tr h
    rw [List.range'_succ]
    have h0 := h a (Nat.le_refl a) (by omega)
    rw [List.cons_append,
        loop_step_full o q limit a (List.range' (a+1) n ++ rest) acc tr (cs a)
          h0.1 h0.2 hpos,
        ih (a+1) rest (acc ++ cs a) (tr ++ [searchReq q limit a])
          (fun i h1 h2 => h i (by omega) (by omega))]
    simp [concatSeg, List.append_assoc]

theorem range5_split (p : Nat) (hp : p < 5) :
    List.range 5 = List.range' 0 p ++ (p :: List.range' (p+1) (4-p)) := by
  rw [List.range_eq_range']
  have h1 := List.range'_append 0 p (5-p) 1
  have h2 : 0 + 1 * p = p := by omega
  have h3 : (5 - p) + p = 5 := by omega
  rw [h2, h3] at h1
  rw [← h1]
  have h4 : 5 - p = (4 - p) + 1 := by omega
  rw [h4, List.range'_succ]

theorem range_succ_split (p : Nat) :
    List.range (p+1) = List.range' 0 p ++ [p] := by
  rw [List.range_succ, List.range_eq_range']

/-- Common prefix evaluation: when the first p pages are full pages,
pagination arrives at page p with their concatenation accumulated and
exactly their requests traced. -/
theorem loop_prefix_run (o : Oracle) (q : String) (p : Nat) (cs : Nat → List Json)
    (hp : p < 5)
    (hbefore : ∀ i, i < p →
        pageItems (o (searchReq q 50 i)) = some (cs i) ∧ 50 ≤ (cs i).length) :
    paginate_search o q 50 5 [] =
      paginate_loop o q 50 (p :: List.range' (p+1) (4-p))
        (concatSeg cs (List.range' 0 p))
        ((List.range' 0 p).map (searchReq q 50)) := by
  unfold paginate_search
  rw [range5_split p hp,
      loop_full_segment o q 50 (by norm_num) cs p 0 (p :: List.range' (p+1) (4-p)) [] []
        (fun i h1 h2 => hbefore i (by omega))]
  simp

/-! Claim C4: pagination halts at the first short or empty page. -/

/-- C4: when the first p pages are full and page p returns fewer items than
the page size (including zero), pagination returns exactly the cards of
pages 0 through p and the request trace holds exactly the requests for
pages 0 through p: no later page is ever requested. -/
theorem C4 (o : Oracle) (q : String) (p : Nat) (cs : Nat → List Json) (hp : p < 5)
    (hbefore : ∀ i, i < p →
        pageItems (o (searchReq q 50 i)) = some (cs i) ∧ 50 ≤ (cs i).length)
    (hat : pageItems (o (searchReq q 50 p)) = some (cs p))
    (hshort : (cs p).length < 50) :
    paginate_search o q 50 5 [] =
      Except.ok (concatSeg cs (List.range (p+1)),
                 (List.range (p+1)).map (searchReq q 50)) := by
  rw [loop_prefix_run o q p cs hp hbefore,
      loop_step_short o q 50 p (List.range' (p+1) (4-p)) _ _ (cs p) hat hshort,
      range_succ_split, concatSeg_append, List.map_append]
  simp [concatSeg]

/-- C4 witness: an upstream returning 3 cards on page 0 yields exactly those
3 cards with pagination halting after page 0, and search returns exactly 3
summaries. -/
theorem C4_witness :
    (paginate_search c4o "rollout" 50 5 [] =
       Except.ok (concatSeg (fun _ => threeCards) (List.range (0+1)),
                  (List.range (0+1)).map (searchReq "rollout" 50)))
    ∧ search c4o "rollout" [] =
        Except.ok (Json.obj [("results", Json.arr threeSummaries)],
          [searchReq "rollout" 50 0]) :=
  ⟨C4 c4o "rollout" 0 (fun _ => threeCards) (by decide)
     (fun i hi => absurd hi (Nat.not_lt_zero i)) rfl (by decide), rfl⟩

/-! Claim C5: the result size bound of pagination. -/

theorem loop_len_bound (o : Oracle) (q : String) (limit : Nat) :
    ∀ (pages : List Nat) (acc : List Json) (tr tr' : List Request) (res : List Json),
    (∀ p ∈ pages, respItemCount (o (searchReq q limit p)) ≤ limit) →
    paginate_loop o q limit pages acc tr = .ok (res, tr') →
    res.length ≤ acc.length + pages.length * limit := by
  intro pages
  induction pages with
  | nil =>
    intro acc tr tr' res _ hrun
    simp only [paginate_loop, mPure, Except.ok.injEq, Prod.mk.injEq] at hrun
    rw [← hrun.1]
    simp
  | cons p rest ih =>
    intro acc tr tr' res hb hrun
    have hbp := hb p (List.mem_cons_self p rest)
    have hbr : ∀ x ∈ rest, respItemCount (o (searchReq q limit x)) ≤ limit :=
      fun x hx => hb x (List.mem_cons_of_mem p hx)
    rw [List.length_cons, Nat.succ_mul]
    cases hresp : o (searchReq q limit p) with
    | failure m =>
      rw [loop_step_err o q limit p rest acc tr m hresp] at hrun
      simp only [Except.ok.injEq, Prod.mk.injEq] at hrun
      rw [← hrun.1]
      omega
    | success body =>
      rw [paginate_loop, mBind_doGet] at hrun
      have hresp' : o ⟨"GET", "search", searchParams q limit p⟩ = .success body := hresp
      simp only [trello_get, hresp'] at hrun
      rw [mBind_liftE] at hrun
      cases hpy : pyIn "error" body with
      | error e => rw [hpy] at hrun; exact absurd hrun (by simp)
      | ok hasErr =>
        rw [hpy] at hrun
        cases hasErr with
        | true =>
          simp only [if_true, mPure, Except.ok.injEq, Prod.mk.injEq] at hrun
          rw [← hrun.1]
          omega
        | false =>
          simp only [Bool.false_eq_true, if_false] at hrun
          rw [mBind_liftE] at hrun
          cases hget : pyGetD body "cards" (.arr []) with
          | error e => rw [hget] at hrun; exact absurd hrun (by simp)
          | ok cards =>
            simp only [hget] at hrun
            have hcount : respItemCount (o (searchReq q limit p))
                = (match pyIter cards with
                   | .ok xs => xs.length
                   | .error _ => 0) := by
              rw [hresp]
              simp only [respItemCount, hget]
            cases htr : cards.truthy with
            | false =>
              rw [htr] at hrun
              simp only [Bool.false_eq_true, if_false, mPure, Except.ok.injEq,
                         Prod.mk.injEq] at hrun
              rw [← hrun.1]
              omega
            | true =>
              rw [htr] at hrun
              simp only [if_true] at hrun
              rw [mBind_liftE] at hrun
              cases hit : pyIter cards with
              | error e => rw [hit] at hrun; exact absurd hrun (by simp)
              | ok elems =>
                simp only [hit] at hrun
                simp only [hit] at hcount
                rw [hcount] at hbp
                by_cases hlen : elems.length < limit
                · rw [if_pos hlen] at hrun
                  simp only [mPure, Except.ok.injEq, Prod.mk.injEq] at hrun
                  rw [← hrun.1, List.length_append]
                  omega
                · rw [if_neg hlen] at hrun
                  have hrec := ih (acc ++ elems) _ _ res hbr hrun
                  rw [List.length_append] at hrec
                  omega

/-- C5: the sequence of summaries search returns never exceeds
page_size times max_pages = 50 times 5 = 250 elements, assuming every
upstream page contributes at most the requested 50 items. -/
theorem C5 (o : Oracle) (q : String) (v : Json) (tr : List Request) (rs : List Json)
    (hb : ∀ i : Nat, respItemCount (o (searchReq q 50 i)) ≤ 50)
    (hrun : search o q [] = Except.ok (v, tr))
    (hres : jLookup v "results" = some (Json.arr rs)) :
    rs.length ≤ 250 := by
  by_cases hq : pyStrip q = ""
  · unfold search at hrun
    rw [if_pos hq] at hrun
    simp only [mPure, Except.ok.injEq, Prod.mk.injEq] at hrun
    rw [← hrun.1] at hres
    simp only [jLookup] at hres
    simp at hres
    simp [hres]
  · unfold search at hrun
    rw [if_neg hq, mBind] at hrun
    cases hpag : paginate_search o q 50 5 [] with
    | error e => rw [hpag] at hrun; exact absurd hrun (by simp)
    | ok pr =>
      obtain ⟨cards, tr1⟩ := pr
      simp only [hpag] at hrun
      rw [mBind_liftE] at hrun
      cases hmap : mapME mkSummary cards with
      | error e => rw [hmap] at hrun; exact absurd hrun (by simp)
      | ok results =>
        simp only [hmap, mPure, Except.ok.injEq, Prod.mk.injEq] at hrun
        rw [← hrun.1] at hres
        simp only [jLookup] at hres
        simp at hres
        have hlen := mapME_length mkSummary cards results hmap
        unfold paginate_search at hpag
        have hbound := loop_len_bound o q 50 (List.range 5) [] [] tr1 cards
          (fun p _ => hb p) hpag
        simp at hbound
        rw [← hres]
        omega

/-- C5 witness: the 3-summary result of the C4 upstream is within the
250-element bound. -/
theorem C5_witness : (threeSummaries).length ≤ 250 :=
  C5 c4o "rollout" (Json.obj [("results", Json.arr threeSummaries)])
    [searchReq "rollout" 50 0] threeSummaries
    (fun i => by
      cases i with
      | zero => decide
      | succ n => show (0:Nat) ≤ 50; decide)
    rfl rfl

theorem mkSummary_ok (c : Json) (h : cardOK c = true) : ∃ s, mkSummary c = .ok s := by
  cases hms : mkSummary c with
  | ok s => exact ⟨s, rfl⟩
  | error e =>
    exfalso
    cases c with
    | obj fs =>
      simp only [cardOK, Bool.and_eq_true] at h
      obtain ⟨hid, hdesc⟩ := h
      rw [Option.isSome_iff_exists] at hid
      obtain ⟨idv, hidv⟩ := hid
      simp only [mkSummary, eBind, pySubscript, hidv, pyGetD] at hms
      cases hd : List.lookup "desc" fs with
      | none =>
        rw [hd] at hms
        simp [Json.truthy] at hms
      | some v =>
        rw [hd] at hdesc
        rw [hd] at hms
        cases v with
        | str s =>
          simp only [Option.getD, Json.truthy] at hms
          by_cases hs : s = ""
          · simp [hs] at hms
          · simp [hs] at hms
        | null => simp [Json.truthy] at hms
        | bool b => simp_all [Json.truthy]
        | num n => simp_all [Json.truthy]
        | arr xs => simp_all [Json.truthy]
        | obj fs2 => simp_all [Json.truthy]
    | null => simp [cardOK] at h
    | bool b => simp [cardOK] at h
    | num n => simp [cardOK] at h
    | str s => simp [cardOK] at h
    | arr xs => simp [cardOK] at h

/-! Claim C6: a page-level upstream error aborts pagination and returns the
summaries accumulated so far. -/

/-- C6: when the first p pages are full pages of processable cards and the
page p request fails, search does not fail: it returns the summaries of the
cards accumulated from pages 0 through p-1, and the trace shows pagination
stopped at page p. -/
theorem C6 (o : Oracle) (q : String) (p : Nat) (cs : Nat → List Json)
    (hq : pyStrip q ≠ "") (hp : p < 5)
    (hbefore : ∀ i, i < p →
        pageItems (o (searchReq q 50 i)) = some (cs i) ∧ 50 ≤ (cs i).length)
    (hcards : (concatSeg cs (List.range p)).all cardOK = true)
    (m : String) (hfail : o (searchReq q 50 p) = .failure m) :
    ∃ rs, search o q [] =
        Except.ok (Json.obj [("results", Json.arr rs)],
                   (List.range (p+1)).map (searchReq q 50))
      ∧ mapME mkSummary (concatSeg cs (List.range p)) = Except.ok rs := by
  have hpag : paginate_search o q 50 5 [] =
      .ok (concatSeg cs (List.range p), (List.range (p+1)).map (searchReq q 50)) := by
    rw [loop_prefix_run o q p cs hp hbefore,
        loop_step_err o q 50 p (List.range' (p+1) (4-p)) _ _ m hfail,
        range_succ_split, List.range_eq_range']
    simp
  obtain ⟨rs, hrs⟩ :=
    mapME_ok_of_all mkSummary cardOK mkSummary_ok (concatSeg cs (List.range p)) hcards
  refine ⟨rs, ?_, hrs⟩
  unfold search
  rw [if_neg hq, mBind]
  simp only [hpag]
  rw [mBind_liftE]
  simp only [hrs, mPure]

/-- C6 witness: page 0 full with 50 cards, page 1 failing: search returns
the 50 accumulated summaries and stops at page 1. -/
theorem C6_witness :
    ∃ rs, search c6o "q" [] =
        Except.ok (Json.obj [("results", Json.arr rs)],
                   (List.range (1+1)).map (searchReq "q" 50))
      ∧ mapME mkSummary (concatSeg (fun _ => fullCards) (List.range 1)) = Except.ok rs :=
  C6 c6o "q" 1 (fun _ => fullCards) (by decide) (by decide)
    (fun i hi => by
      cases i with
      | zero => exact ⟨rfl, by decide⟩
      | succ n => exact absurd hi (by omega))
    (by decide) "down" rfl

/-! Helper lemmas for the fetch evaluation walks. -/

theorem mBind_mPure {α β : Type} (a : α) (f : α → M β) (tr : List Request) :
    mBind (mPure a) f tr = f a tr := rfl

theorem mBind_assoc {α β γ : Type} (x : M α) (g : α → M β) (f : β → M γ)
    (tr : List Request) :
    mBind (mBind x g) f tr = mBind x (fun a => mBind (g a) f) tr := by
  cases hx : x tr with
  | error e => simp [mBind, hx]
  | ok pr =>
    cases pr with
    | mk a tr' => simp [mBind, hx]

theorem trello_get_obj {o : Oracle} {e : String} {ps : List (String × Json)}
    (h : respObjOrFailB (o ⟨"GET", e, ps⟩) = true) :
    ∃ fs, trello_get o e ps = Json.obj fs := by
  rw [trello_get]
  cases hr : o ⟨"GET", e, ps⟩ with
  | failure m => exact ⟨[("error", Json.str m)], rfl⟩
  | success body =>
    rw [hr] at h
    cases body with
    | obj fs => exact ⟨fs, rfl⟩
    | null => simp [respObjOrFailB] at h
    | bool b => simp [respObjOrFailB] at h
    | num n => simp [respObjOrFailB] at h
    | str s => simp [respObjOrFailB] at h
    | arr xs => simp [respObjOrFailB] at h

theorem pyGetD_obj (fs : List (String × Json)) (k : String) (d : Json) :
    pyGetD (.obj fs) k d = .ok ((List.lookup k fs).getD d) := rfl

theorem mBind_eval {α β : Type} {x : M α} {a : α} {tr tr' : List Request}
    (f : α → M β) (hx : x tr = .ok (a, tr')) :
    mBind x f tr = f a tr' := by
  simp [mBind, hx]

theorem orgStage_none (o : Oracle) (bfs : List (String × Json))
    (hlo : List.lookup "idOrganization" bfs = none) (tr : List Request) :
    orgStage o (Json.obj bfs) tr = .ok (Json.obj [], tr) := by
  unfold orgStage
  simp [mBind_liftE, pyGetD_obj, hlo, Option.getD_none, Json.truthy, mPure]

theorem orgStage_falsy (o : Oracle) (bfs : List (String × Json)) (wv : Json)
    (hlo : List.lookup "idOrganization" bfs = some wv) (hwt : wv.truthy = false)
    (tr : List Request) :
    orgStage o (Json.obj bfs) tr = .ok (Json.obj [], tr) := by
  unfold orgStage
  simp [mBind_liftE, pyGetD_obj, hlo, Option.getD_some, hwt, mPure]

theorem orgStage_some (o : Oracle) (bfs : List (String × Json)) (wv : Json)
    (hlo : List.lookup "idOrganization" bfs = some wv) (hwt : wv.truthy = true)
    (tr : List Request) :
    orgStage o (Json.obj bfs) tr
      = .ok (trello_get o ("organizations/" ++ pyStr wv) orgInfoParams,
             tr ++ [⟨"GET", "organizations/" ++ pyStr wv, orgInfoParams⟩]) := by
  unfold orgStage
  simp [mBind_liftE, pyGetD_obj, hlo, Option.getD_some, hwt, pySubscript,
        mBind_doGet, doGet]

theorem detailRecord_run (o : Oracle) (card_id : String)
    (cfs lfs bfs : List (String × Json)) (org_info : Json) (cl : List Json)
    (w : Json) (tr : List Request)
    (hcl : commentsStage (trello_get o ("cards/" ++ card_id ++ "/actions")
        actionsParams) = .ok cl)
    (hwsp : (if org_info.truthy = true then pyGetD org_info "displayName" (Json.str "")
             else Except.ok Json.null) = .ok w) :
    detailRecord o card_id (Json.obj cfs) (Json.obj lfs) (Json.obj bfs) org_info tr
      = .ok (detailObj cfs lfs bfs cl w, tr ++ [actionsReq card_id]) := by
  unfold detailRecord
  simp only [mBind_doGet, mBind_liftE, pyGetD_obj, hcl, hwsp, mPure, actionsReq,
             detailObj]

theorem fetch_run (o : Oracle) (cid : String) (hne : ¬ pyStrip cid = "")
    (cfs : List (String × Json))
    (hcg : trello_get o ("cards/" ++ cid) fetchCardParams = Json.obj cfs)
    (hkm : keyMem "error" cfs = false) :
    fetch o cid [] =
      mBind (orgStage o (trello_get o
          ("boards/" ++ pyStr ((List.lookup "idBoard" cfs).getD Json.null))
          boardInfoParams))
        (fun org_info => detailRecord o cid (Json.obj cfs)
          (trello_get o ("lists/" ++ pyStr ((List.lookup "idList" cfs).getD Json.null))
            listInfoParams)
          (trello_get o ("boards/" ++ pyStr ((List.lookup "idBoard" cfs).getD Json.null))
            boardInfoParams)
          org_info)
        [cardReq cid,
         ⟨"GET", "lists/" ++ pyStr ((List.lookup "idList" cfs).getD Json.null),
          listInfoParams⟩,
         ⟨"GET", "boards/" ++ pyStr ((List.lookup "idBoard" cfs).getD Json.null),
          boardInfoParams⟩] := by
  unfold fetch
  rw [if_neg hne]
  simp only [mBind_doGet, hcg, mBind_liftE, pyIn, hkm, Bool.false_eq_true,
             if_false, pyGetD_obj, cardReq, List.nil_append, List.cons_append]

theorem fetch_err_run (o : Oracle) (cid : String) (hne : ¬ pyStrip cid = "")
    (cfs : List (String × Json))
    (hcg : trello_get o ("cards/" ++ cid) fetchCardParams = Json.obj cfs)
    (hkm : keyMem "error" cfs = true) (ev : Json)
    (hev : List.lookup "error" cfs = some ev) :
    fetch o cid [] = .ok (Json.obj [("error", ev)], [cardReq cid]) := by
  unfold fetch
  rw [if_neg hne]
  simp [mBind_doGet, hcg, mBind_liftE, pyIn, hkm, pySubscript, hev, mPure, cardReq]

/-! Claim C3: a failing comment feed degrades to an empty comment list. -/

/-- C3: when the primary card lookup succeeds and the dependent list, board
and workspace lookups succeed, a failing comment-feed request is not fatal:
fetch still returns the full eleven-field detail record, its comments field
is the empty list, and the record is not an error envelope. -/
theorem C3 (o : Oracle) (cid : String) (hne : pyStrip cid ≠ "")
    (cardFs : List (String × Json))
    (hcard : o (cardReq cid) = .success (.obj cardFs))
    (hnoerr : keyMem "error" cardFs = false)
    (lfs : List (String × Json))
    (hlist : o ⟨"GET", "lists/" ++ pyStr ((List.lookup "idList" cardFs).getD Json.null),
                listInfoParams⟩ = .success (.obj lfs))
    (bfs : List (String × Json))
    (hboard : o ⟨"GET", "boards/" ++ pyStr ((List.lookup "idBoard" cardFs).getD Json.null),
                 boardInfoParams⟩ = .success (.obj bfs))
    (wid : String) (hwid : wid ≠ "")
    (hwo : List.lookup "idOrganization" bfs = some (Json.str wid))
    (ofs : List (String × Json)) (hofs : ofs ≠ [])
    (horg : o ⟨"GET", "organizations/" ++ wid, orgInfoParams⟩ = .success (.obj ofs))
    (m : String)
    (hcm : o (actionsReq cid) = .failure m) :
    ∃ fs : List (String × Json),
      fetch o cid [] =
        Except.ok (Json.obj fs,
          [cardReq cid,
           ⟨"GET", "lists/" ++ pyStr ((List.lookup "idList" cardFs).getD Json.null),
            listInfoParams⟩,
           ⟨"GET", "boards/" ++ pyStr ((List.lookup "idBoard" cardFs).getD Json.null),
            boardInfoParams⟩,
           ⟨"GET", "organizations/" ++ wid, orgInfoParams⟩,
           actionsReq cid])
      ∧ fs.map Prod.fst =
          ["id", "title", "text", "url", "due", "closed", "members",
           "checklists", "attachments", "comments", "metadata"]
      ∧ List.lookup "comments" fs = some (Json.arr [])
      ∧ List.lookup "error" fs = none := by
  have hcard' : o ⟨"GET", "cards/" ++ cid, fetchCardParams⟩
      = UpResp.success (Json.obj cardFs) := hcard
  have hcm' : o ⟨"GET", "cards/" ++ cid ++ "/actions", actionsParams⟩
      = UpResp.failure m := hcm
  have hcardg : trello_get o ("cards/" ++ cid) fetchCardParams = Json.obj cardFs := by
    rw [trello_get, hcard']
  have hlg : trello_get o ("lists/" ++ pyStr ((List.lookup "idList" cardFs).getD Json.null))
      listInfoParams = Json.obj lfs := by
    rw [trello_get, hlist]
  have hbg : trello_get o ("boards/" ++ pyStr ((List.lookup "idBoard" cardFs).getD Json.null))
      boardInfoParams = Json.obj bfs := by
    rw [trello_get, hboard]
  have hog : trello_get o ("organizations/" ++ wid) orgInfoParams = Json.obj ofs := by
    rw [trello_get, horg]
  have hcmg : trello_get o ("cards/" ++ cid ++ "/actions") actionsParams
      = Json.obj [("error", Json.str m)] := by
    rw [trello_get, hcm']
  have hwt : (Json.str wid).truthy = true := by simp [Json.truthy, hwid]
  have hcl : commentsStage (trello_get o ("cards/" ++ cid ++ "/actions") actionsParams)
      = Except.ok [] := by
    rw [hcmg]
    simp [commentsStage, keyMem, pyIter, eBind, mapME]
  have hwsp : (if (Json.obj ofs).truthy = true
        then pyGetD (Json.obj ofs) "displayName" (Json.str "")
        else Except.ok Json.null)
      = Except.ok ((List.lookup "displayName" ofs).getD (Json.str "")) := by
    simp [Json.truthy, hofs, pyGetD_obj]
  rw [fetch_run o cid hne cardFs hcardg hnoerr, hbg,
      mBind_eval _ (orgStage_some o bfs (Json.str wid) hwo hwt _), hlg]
  rw [show pyStr (Json.str wid) = wid from rfl, hog]
  rw [detailRecord_run o cid cardFs lfs bfs (Json.obj ofs) []
        ((List.lookup "displayName" ofs).getD (Json.str "")) _ hcl hwsp]
  simp only [detailObj, List.cons_append, List.nil_append]
  refine ⟨_, rfl, ?_, ?_, ?_⟩ <;> simp [List.lookup_cons]

/-- C3 witness: a concrete card whose list, board and workspace lookups
succeed while the comment feed fails. -/
theorem C3_witness :
    ∃ fs : List (String × Json),
      fetch c3o "abc" [] =
        Except.ok (Json.obj fs,
          [cardReq "abc",
           ⟨"GET", "lists/" ++ pyStr ((List.lookup "idList" wCardFs).getD Json.null),
            listInfoParams⟩,
           ⟨"GET", "boards/" ++ pyStr ((List.lookup "idBoard" wCardFs).getD Json.null),
            boardInfoParams⟩,
           ⟨"GET", "organizations/" ++ "W1", orgInfoParams⟩,
           actionsReq "abc"])
      ∧ fs.map Prod.fst =
          ["id", "title", "text", "url", "due", "closed", "members",
           "checklists", "attachments", "comments", "metadata"]
      ∧ List.lookup "comments" fs = some (Json.arr [])
      ∧ List.lookup "error" fs = none :=
  C3 c3o "abc" (by decide) wCardFs rfl (by decide)
    [("name", Json.str "My List")] rfl
    wBoardFs rfl
    "W1" (by decide) rfl
    [("displayName", Json.str "WS")] (List.cons_ne_nil _ _) rfl
    "down" rfl

/-! Claim C7: failing or absent dependent resources degrade to empty or
null metadata fields, never fatally. -/

/-- C7: when the primary card lookup succeeds, a failing list lookup leaves
the list metadata field as the empty string; a board without a workspace id
leaves the workspace field null and no workspace request is ever issued; a
failing board lookup leaves the board name and url empty and the workspace
null; a failing workspace lookup leaves the workspace field as the empty
string; in every case fetch returns a detail record, not an error, so a
dependent failure is never fatal. -/
theorem C7
    (oA : Oracle) (cidA : String) (hneA : pyStrip cidA ≠ "")
    (cfsA : List (String × Json))
    (hcardA : oA (cardReq cidA) = .success (.obj cfsA))
    (hnoerrA : keyMem "error" cfsA = false)
    (mLA : String)
    (hlistA : oA ⟨"GET", "lists/" ++ pyStr ((List.lookup "idList" cfsA).getD Json.null),
                  listInfoParams⟩ = .failure mLA)
    (bfsA : List (String × Json))
    (hboardA : oA ⟨"GET", "boards/" ++ pyStr ((List.lookup "idBoard" cfsA).getD Json.null),
                   boardInfoParams⟩ = .success (.obj bfsA))
    (hnowsA : List.lookup "idOrganization" bfsA = none)
    (mCA : String) (hcmA : oA (actionsReq cidA) = .failure mCA)
    (oB : Oracle) (cidB : String) (hneB : pyStrip cidB ≠ "")
    (cfsB : List (String × Json))
    (hcardB : oB (cardReq cidB) = .success (.obj cfsB))
    (hnoerrB : keyMem "error" cfsB = false)
    (mLB : String)
    (hlistB : oB ⟨"GET", "lists/" ++ pyStr ((List.lookup "idList" cfsB).getD Json.null),
                  listInfoParams⟩ = .failure mLB)
    (mBB : String)
    (hboardB : oB ⟨"GET", "boards/" ++ pyStr ((List.lookup "idBoard" cfsB).getD Json.null),
                   boardInfoParams⟩ = .failure mBB)
    (mCB : String) (hcmB : oB (actionsReq cidB) = .failure mCB)
    (oC : Oracle) (cidC : String) (hneC : pyStrip cidC ≠ "")
    (cfsC : List (String × Json))
    (hcardC : oC (cardReq cidC) = .success (.obj cfsC))
    (hnoerrC : keyMem "error" cfsC = false)
    (mLC : String)
    (hlistC : oC ⟨"GET", "lists/" ++ pyStr ((List.lookup "idList" cfsC).getD Json.null),
                  listInfoParams⟩ = .failure mLC)
    (bfsC : List (String × Json))
    (hboardC : oC ⟨"GET", "boards/" ++ pyStr ((List.lookup "idBoard" cfsC).getD Json.null),
                   boardInfoParams⟩ = .success (.obj bfsC))
    (widC : String) (hwidC : widC ≠ "")
    (hwoC : List.lookup "idOrganization" bfsC = some (Json.str widC))
    (mWC : String)
    (horgC : oC ⟨"GET", "organizations/" ++ widC, orgInfoParams⟩ = .failure mWC)
    (mCC : String) (hcmC : oC (actionsReq cidC) = .failure mCC) :
    (∃ fs : List (String × Json),
       fetch oA cidA [] = Except.ok (Json.obj fs,
         [cardReq cidA,
          ⟨"GET", "lists/" ++ pyStr ((List.lookup "idList" cfsA).getD Json.null),
           listInfoParams⟩,
          ⟨"GET", "boards/" ++ pyStr ((List.lookup "idBoard" cfsA).getD Json.null),
           boardInfoParams⟩,
          actionsReq cidA])
       ∧ metaField fs "list" = some (Json.str "")
       ∧ metaField fs "workspace" = some Json.null
       ∧ List.lookup "error" fs = none)
    ∧ (∃ fs : List (String × Json),
       fetch oB cidB [] = Except.ok (Json.obj fs,
         [cardReq cidB,
          ⟨"GET", "lists/" ++ pyStr ((List.lookup "idList" cfsB).getD Json.null),
           listInfoParams⟩,
          ⟨"GET", "boards/" ++ pyStr ((List.lookup "idBoard" cfsB).getD Json.null),
           boardInfoParams⟩,
          actionsReq cidB])
       ∧ metaField fs "board" = some (Json.str "")
       ∧ metaField fs "boardUrl" = some (Json.str "")
       ∧ metaField fs "workspace" = some Json.null
       ∧ List.lookup "error" fs = none)
    ∧ (∃ fs : List (String × Json),
       fetch oC cidC [] = Except.ok (Json.obj fs,
         [cardReq cidC,
          ⟨"GET", "lists/" ++ pyStr ((List.lookup "idList" cfsC).getD Json.null),
           listInfoParams⟩,
          ⟨"GET", "boards/" ++ pyStr ((List.lookup "idBoard" cfsC).getD Json.null),
           boardInfoParams⟩,
          ⟨"GET", "organizations/" ++ widC, orgInfoParams⟩,
          actionsReq cidC])
       ∧ metaField fs "workspace" = some (Json.str "")
       ∧ List.lookup "error" fs = none) := by
  refine ⟨?_, ?_, ?_⟩
  · have hcard' : oA ⟨"GET", "cards/" ++ cidA, fetchCardParams⟩
        = UpResp.success (Json.obj cfsA) := hcardA
    have hcm' : oA ⟨"GET", "cards/" ++ cidA ++ "/actions", actionsParams⟩
        = UpResp.failure mCA := hcmA
    have hcardg : trello_get oA ("cards/" ++ cidA) fetchCardParams = Json.obj cfsA := by
      rw [trello_get, hcard']
    have hlg : trello_get oA
        ("lists/" ++ pyStr ((List.lookup "idList" cfsA).getD Json.null))
        listInfoParams = Json.obj [("error", Json.str mLA)] := by
      rw [trello_get, hlistA]
    have hbg : trello_get oA
        ("boards/" ++ pyStr ((List.lookup "idBoard" cfsA).getD Json.null))
        boardInfoParams = Json.obj bfsA := by
      rw [trello_get, hboardA]
    have hcmg : trello_get oA ("cards/" ++ cidA ++ "/actions") actionsParams
        = Json.obj [("error", Json.str mCA)] := by
      rw [trello_get, hcm']
    have hcl : commentsStage (trello_get oA ("cards/" ++ cidA ++ "/actions")
        actionsParams) = Except.ok [] := by
      rw [hcmg]
      simp [commentsStage, keyMem, pyIter, eBind, mapME]
    have hwsp : (if (Json.obj ([] : List (String × Json))).truthy = true
          then pyGetD (Json.obj []) "displayName" (Json.str "")
          else Except.ok Json.null) = Except.ok Json.null := by
      simp [Json.truthy]
    rw [fetch_run oA cidA hneA cfsA hcardg hnoerrA, hbg,
        mBind_eval _ (orgStage_none oA bfsA hnowsA _), hlg]
    rw [detailRecord_run oA cidA cfsA [("error", Json.str mLA)] bfsA (Json.obj [])
          [] Json.null _ hcl hwsp]
    simp only [detailObj, List.cons_append, List.nil_append]
    refine ⟨_, rfl, ?_, ?_, ?_⟩ <;> simp [metaField, List.lookup_cons]
  · have hcard' : oB ⟨"GET", "cards/" ++ cidB, fetchCardParams⟩
        = UpResp.success (Json.obj cfsB) := hcardB
    have hcm' : oB ⟨"GET", "cards/" ++ cidB ++ "/actions", actionsParams⟩
        = UpResp.failure mCB := hcmB
    have hcardg : trello_get oB ("cards/" ++ cidB) fetchCardParams = Json.obj cfsB := by
      rw [trello_get, hcard']
    have hlg : trello_get oB
        ("lists/" ++ pyStr ((List.lookup "idList" cfsB).getD Json.null))
        listInfoParams = Json.obj [("error", Json.str mLB)] := by
      rw [trello_get, hlistB]
    have hbg : trello_get oB
        ("boards/" ++ pyStr ((List.lookup "idBoard" cfsB).getD Json.null))
        boardInfoParams = Json.obj [("error", Json.str mBB)] := by
      rw [trello_get, hboardB]
    have hcmg : trello_get oB ("cards/" ++ cidB ++ "/actions") actionsParams
        = Json.obj [("error", Json.str mCB)] := by
      rw [trello_get, hcm']
    have hcl : commentsStage (trello_get oB ("cards/" ++ cidB ++ "/actions")
        actionsParams) = Except.ok [] := by
      rw [hcmg]
      simp [commentsStage, keyMem, pyIter, eBind, mapME]
    have hwsp : (if (Json.obj ([] : List (String × Json))).truthy = true
          then pyGetD (Json.obj []) "displayName" (Json.str "")
          else Except.ok Json.null) = Except.ok Json.null := by
      simp [Json.truthy]
    have hnoorg : List.lookup "idOrganization"
        ([("error", Json.str mBB)] : List (String × Json)) = none := by
      simp
    rw [fetch_run oB cidB hneB cfsB hcardg hnoerrB, hbg,
        mBind_eval _ (orgStage_none oB [("error", Json.str mBB)] hnoorg _), hlg]
    rw [detailRecord_run oB cidB cfsB [("error", Json.str mLB)]
          [("error", Json.str mBB)] (Json.obj []) [] Json.null _ hcl hwsp]
    simp only [detailObj, List.cons_append, List.nil_append]
    refine ⟨_, rfl, ?_, ?_, ?_, ?_⟩ <;> simp [metaField, List.lookup_cons]
  · have hcard' : oC ⟨"GET", "cards/" ++ cidC, fetchCardParams⟩
        = UpResp.success (Json.obj cfsC) := hcardC
    have hcm' : oC ⟨"GET", "cards/" ++ cidC ++ "/actions", actionsParams⟩
        = UpResp.failure mCC := hcmC
    have hcardg : trello_get oC ("cards/" ++ cidC) fetchCardParams = Json.obj cfsC := by
      rw [trello_get, hcard']
    have hlg : trello_get oC
        ("lists/" ++ pyStr ((List.lookup "idList" cfsC).getD Json.null))
        listInfoParams = Json.obj [("error", Json.str mLC)] := by
      rw [trello_get, hlistC]
    have hbg : trello_get oC
        ("boards/" ++ pyStr ((List.lookup "idBoard" cfsC).getD Json.null))
        boardInfoParams = Json.obj bfsC := by
      rw [trello_get, hboardC]
    have hog : trello_get oC ("organizations/" ++ widC) orgInfoParams
        = Json.obj [("error", Json.str mWC)] := by
      rw [trello_get, horgC]
    have hcmg : trello_get oC ("cards/" ++ cidC ++ "/actions") actionsParams
        = Json.obj [("error", Json.str mCC)] := by
      rw [trello_get, hcm']
    have hcl : commentsStage (trello_get oC ("cards/" ++ cidC ++ "/actions")
        actionsParams) = Except.ok [] := by
      rw [hcmg]
      simp [commentsStage, keyMem, pyIter, eBind, mapME]
    have hwt : (Json.str widC).truthy = true := by simp [Json.truthy, hwidC]
    have hwsp : (if (Json.obj [("error", Json.str mWC)]).truthy = true
          then pyGetD (Json.obj [("error", Json.str mWC)]) "displayName" (Json.str "")
          else Except.ok Json.null) = Except.ok (Json.str "") := by
      simp [Json.truthy, pyGetD_obj, List.lookup_cons]
    rw [fetch_run oC cidC hneC cfsC hcardg hnoerrC, hbg,
        mBind_eval _ (orgStage_some oC bfsC (Json.str widC) hwoC hwt _), hlg]
    rw [show pyStr (Json.str widC) = widC from rfl, hog]
    rw [detailRecord_run oC cidC cfsC [("error", Json.str mLC)] bfsC
          (Json.obj [("error", Json.str mWC)]) [] (Json.str "") _ hcl hwsp]
    simp only [detailObj, List.cons_append, List.nil_append]
    refine ⟨_, rfl, ?_, ?_⟩ <;> simp [metaField, List.lookup_cons]

/-- C7 witness: three concrete upstreams exercising the failing list, the
board without a workspace id, the failing board, and the failing workspace
lookup. -/
theorem C7_witness :
    (∃ fs : List (String × Json),
       fetch c7oA "abc" [] = Except.ok (Json.obj fs,
         [cardReq "abc",
          ⟨"GET", "lists/" ++ pyStr ((List.lookup "idList" wCardFs).getD Json.null),
           listInfoParams⟩,
          ⟨"GET", "boards/" ++ pyStr ((List.lookup "idBoard" wCardFs).getD Json.null),
           boardInfoParams⟩,
          actionsReq "abc"])
       ∧ metaField fs "list" = some (Json.str "")
       ∧ metaField fs "workspace" = some Json.null
       ∧ List.lookup "error" fs = none)
    ∧ (∃ fs : List (String × Json),
       fetch c7oB "abc" [] = Except.ok (Json.obj fs,
         [cardReq "abc",
          ⟨"GET", "lists/" ++ pyStr ((List.lookup "idList" wCardFs).getD Json.null),
           listInfoParams⟩,
          ⟨"GET", "boards/" ++ pyStr ((List.lookup "idBoard" wCardFs).getD Json.null),
           boardInfoParams⟩,
          actionsReq "abc"])
       ∧ metaField fs "board" = some (Json.str "")
       ∧ metaField fs "boardUrl" = some (Json.str "")
       ∧ metaField fs "workspace" = some Json.null
       ∧ List.lookup "error" fs = none)
    ∧ (∃ fs : List (String × Json),
       fetch c7oC "abc" [] = Except.ok (Json.obj fs,
         [cardReq "abc",
          ⟨"GET", "lists/" ++ pyStr ((List.lookup "idList" wCardFs).getD Json.null),
           listInfoParams⟩,
          ⟨"GET", "boards/" ++ pyStr ((List.lookup "idBoard" wCardFs).getD Json.null),
           boardInfoParams⟩,
          ⟨"GET", "organizations/" ++ "W1", orgInfoParams⟩,
          actionsReq "abc"])
       ∧ metaField fs "workspace" = some (Json.str "")
       ∧ List.lookup "error" fs = none) :=
  C7 c7oA "abc" (by decide) wCardFs rfl (by decide) "down" rfl c7boardFs rfl rfl
     "down" rfl
     c7oB "abc" (by decide) wCardFs rfl (by decide) "down" rfl "down" rfl
     "down" rfl
     c7oC "abc" (by decide) wCardFs rfl (by decide) "down" rfl wBoardFs rfl
     "W1" (by decide) rfl "down" rfl "down" rfl

/-! Claim C9: do tool invocations ever propagate an exception? -/

/-- C9 counterexample: a successful search page whose card list contains an
object without an id makes the search tool raise a KeyError instead of
returning a response object. -/
theorem C9_counterexample :
    search c9o "q" [] = Except.error "KeyError: id" := rfl

theorem commentShape_ok (c : Json) (h : (Json.isDict c && commentOK c) = true) :
    ∃ s, commentShape c = .ok s := by
  cases hms : commentShape c with
  | ok s => exact ⟨s, rfl⟩
  | error e =>
    exfalso
    cases c with
    | obj fs =>
      simp only [Json.isDict, commentOK, Bool.true_and, Bool.and_eq_true] at h
      obtain ⟨hmc, hdf⟩ := h
      simp only [commentShape, eBind, pyGetD_obj] at hms
      cases hm : List.lookup "memberCreator" fs with
      | none =>
        rw [hm] at hms
        simp only [Option.getD_none] at hms
        cases hdv : List.lookup "data" fs with
        | none => rw [hdv] at hms; simp [pyGetD] at hms
        | some dv =>
          rw [hdv] at hdf
          rw [hdv] at hms
          cases dv <;> simp_all [pyGetD]
      | some mv =>
        rw [hm] at hmc
        rw [hm] at hms
        cases mv with
        | obj mfs =>
          simp only [Option.getD_some, pyGetD_obj] at hms
          cases hdv : List.lookup "data" fs with
          | none => rw [hdv] at hms; simp [pyGetD] at hms
          | some dv =>
            rw [hdv] at hdf
            rw [hdv] at hms
            cases dv <;> simp_all [pyGetD]
        | null => simp_all
        | bool b => simp_all
        | num n => simp_all
        | str s => simp_all
        | arr xs => simp_all
    | null => simp [Json.isDict] at h
    | bool b => simp [Json.isDict] at h
    | num n => simp [Json.isDict] at h
    | str s => simp [Json.isDict] at h
    | arr xs => simp [Json.isDict] at h

theorem filter_isDict_strs {α : Type} (l : List α) (f : α → String) :
    (l.map (fun a => Json.str (f a))).filter Json.isDict = [] := by
  induction l with
  | nil => rfl
  | cons x rest ih => simp [List.filter, Json.isDict, ih]

theorem filter_all_commentOK (xs : List Json) (h : xs.all commentOK = true) :
    (xs.filter Json.isDict).all (fun c => Json.isDict c && commentOK c) = true := by
  induction xs with
  | nil => rfl
  | cons x rest ih =>
    simp only [List.all_cons, Bool.and_eq_true] at h
    cases hd : Json.isDict x with
    | true => simp [List.filter, hd, h.1, ih h.2]
    | false => simp [List.filter, hd, ih h.2]

theorem commentsStage_ok (j : Json) (h : commentsBodyOK j = true) :
    ∃ cl, commentsStage j = .ok cl := by
  cases j with
  | obj fs =>
    cases hkm : keyMem "error" fs with
    | true => exact ⟨[], by simp [commentsStage, hkm, pyIter, eBind, mapME]⟩
    | false =>
      refine ⟨[], ?_⟩
      simp [commentsStage, hkm, pyIter, eBind, filter_isDict_strs, mapME]
  | str s =>
    refine ⟨[], ?_⟩
    simp [commentsStage, pyIter, eBind, filter_isDict_strs, mapME]
  | arr xs =>
    simp only [commentsBodyOK] at h
    obtain ⟨ys, hys⟩ := mapME_ok_of_all commentShape
      (fun c => Json.isDict c && commentOK c) commentShape_ok
      (xs.filter Json.isDict) (filter_all_commentOK xs h)
    exact ⟨ys, by simp [commentsStage, pyIter, eBind, hys]⟩
  | null => simp [commentsBodyOK] at h
  | bool b => simp [commentsBodyOK] at h
  | num n => simp [commentsBodyOK] at h

theorem trello_get_commentsOK {o : Oracle} {cid : String}
    (h : commentsRespOK (o (actionsReq cid)) = true) :
    commentsBodyOK (trello_get o ("cards/" ++ cid ++ "/actions") actionsParams) = true := by
  have h' : commentsRespOK (o ⟨"GET", "cards/" ++ cid ++ "/actions", actionsParams⟩)
      = true := h
  rw [trello_get]
  cases hr : o ⟨"GET", "cards/" ++ cid ++ "/actions", actionsParams⟩ with
  | failure m => simp [commentsBodyOK]
  | success body =>
    rw [hr] at h'
    cases body <;> simp_all [commentsRespOK, commentsBodyOK]

theorem paginate_ok_all (o : Oracle) (q : String) (limit : Nat) :
    ∀ (pages : List Nat) (acc : List Json) (tr : List Request),
    acc.all cardOK = true →
    (∀ p ∈ pages, searchRespOK (o (searchReq q limit p)) = true) →
    ∃ res tr', paginate_loop o q limit pages acc tr = .ok (res, tr')
      ∧ res.all cardOK = true := by
  intro pages
  induction pages with
  | nil => intro acc tr hacc _; exact ⟨acc, tr, rfl, hacc⟩
  | cons p rest ih =>
    intro acc tr hacc hwf
    have hwfp := hwf p (List.mem_cons_self p rest)
    have hwfr : ∀ x ∈ rest, searchRespOK (o (searchReq q limit x)) = true :=
      fun x hx => hwf x (List.mem_cons_of_mem p hx)
    rw [paginate_loop, mBind_doGet]
    cases hresp : o (searchReq q limit p) with
    | failure m =>
      have hresp' : o ⟨"GET", "search", searchParams q limit p⟩ = .failure m := hresp
      refine ⟨acc, tr ++ [⟨"GET", "search", searchParams q limit p⟩], ?_, hacc⟩
      simp [trello_get, hresp', mBind_liftE, pyIn, keyMem, mPure]
    | success body =>
      have hresp' : o ⟨"GET", "search", searchParams q limit p⟩ = .success body := hresp
      rw [hresp] at hwfp
      cases body with
      | obj fs =>
        simp only [trello_get, hresp', mBind_liftE, pyIn]
        cases hkm : keyMem "error" fs with
        | true =>
          refine ⟨acc, tr ++ [⟨"GET", "search", searchParams q limit p⟩], ?_, hacc⟩
          simp [mPure]
        | false =>
          simp only [Bool.false_eq_true, if_false, mBind_liftE, pyGetD_obj]
          simp only [searchRespOK, hkm, Bool.false_eq_true, if_false] at hwfp
          cases hlk : List.lookup "cards" fs with
          | none =>
            refine ⟨acc, tr ++ [⟨"GET", "search", searchParams q limit p⟩], ?_, hacc⟩
            simp [hlk, Option.getD_none, Json.truthy, mPure]
          | some v =>
            rw [hlk] at hwfp
            simp only [hlk, Option.getD_some]
            cases v with
            | arr xs =>
              have hwall : xs.all cardOK = true := by
                change xs.all cardOK = true at hwfp
                exact hwfp
              cases xs with
              | nil =>
                refine ⟨acc, tr ++ [⟨"GET", "search", searchParams q limit p⟩], ?_, hacc⟩
                simp [Json.truthy, mPure]
              | cons x xs' =>
                have htr : (Json.arr (x :: xs')).truthy = true := by
                  simp [Json.truthy]
                simp only [htr, if_true, mBind_liftE, pyIter]
                have hall : (acc ++ x :: xs').all cardOK = true := by
                  rw [List.all_append]
                  simp only [hacc, Bool.true_and]
                  exact hwall
                by_cases hlen : (x :: xs').length < limit
                · simp only [List.length_cons] at hlen
                  refine ⟨acc ++ x :: xs',
                    tr ++ [⟨"GET", "search", searchParams q limit p⟩], ?_, hall⟩
                  simp [hlen, mPure]
                · simp only [List.length_cons] at hlen
                  obtain ⟨res, tr', hres, hresall⟩ := ih (acc ++ x :: xs')
                    (tr ++ [⟨"GET", "search", searchParams q limit p⟩]) hall hwfr
                  refine ⟨res, tr', ?_, hresall⟩
                  simp [hlen, hres]
            | null =>
              refine ⟨acc, tr ++ [⟨"GET", "search", searchParams q limit p⟩], ?_, hacc⟩
              simp [Json.truthy, mPure]
            | bool b =>
              change (!(Json.bool b).truthy) = true at hwfp
              have htr : (Json.bool b).truthy = false := by simpa using hwfp
              refine ⟨acc, tr ++ [⟨"GET", "search", searchParams q limit p⟩], ?_, hacc⟩
              simp [htr, mPure]
            | num n =>
              change (!(Json.num n).truthy) = true at hwfp
              have htr : (Json.num n).truthy = false := by simpa using hwfp
              refine ⟨acc, tr ++ [⟨"GET", "search", searchParams q limit p⟩], ?_, hacc⟩
              simp [htr, mPure]
            | str s =>
              change (!(Json.str s).truthy) = true at hwfp
              have htr : (Json.str s).truthy = false := by simpa using hwfp
              refine ⟨acc, tr ++ [⟨"GET", "search", searchParams q limit p⟩], ?_, hacc⟩
              simp [htr, mPure]
            | obj fs2 =>
              change (!(Json.obj fs2).truthy) = true at hwfp
              have htr : (Json.obj fs2).truthy = false := by simpa using hwfp
              refine ⟨acc, tr ++ [⟨"GET", "search", searchParams q limit p⟩], ?_, hacc⟩
              simp [htr, mPure]
      | null => simp [searchRespOK] at hwfp
      | bool b => simp [searchRespOK] at hwfp
      | num n => simp [searchRespOK] at hwfp
      | str s => simp [searchRespOK] at hwfp
      | arr xs => simp [searchRespOK] at hwfp

theorem search_ok (o : Oracle) (q : String)
    (hwf : ∀ i : Nat, searchRespOK (o (searchReq q 50 i)) = true) :
    ∃ v tr, search o q [] = .ok (v, tr) := by
  by_cases hq : pyStrip q = ""
  · exact ⟨_, _, by unfold search; rw [if_pos hq]; rfl⟩
  · obtain ⟨res, tr', hrun, hall⟩ :=
      paginate_ok_all o q 50 (List.range 5) [] [] rfl (fun p _ => hwf p)
    have hrun' : paginate_search o q 50 5 [] = Except.ok (res, tr') := hrun
    obtain ⟨ys, hys⟩ := mapME_ok_of_all mkSummary cardOK mkSummary_ok res hall
    unfold search
    rw [if_neg hq]
    simp only [mBind, hrun', mBind_liftE, hys, mPure]
    exact ⟨_, _, rfl⟩

theorem fetch_ok (o : Oracle) (cid : String)
    (hcard : respObjOrFailB (o (cardReq cid)) = true)
    (hl : ∀ e, respObjOrFailB (o ⟨"GET", "lists/" ++ e, listInfoParams⟩) = true)
    (hb : ∀ e, respObjOrFailB (o ⟨"GET", "boards/" ++ e, boardInfoParams⟩) = true)
    (hw : ∀ e, respObjOrFailB (o ⟨"GET", "organizations/" ++ e, orgInfoParams⟩) = true)
    (hcm : commentsRespOK (o (actionsReq cid)) = true) :
    ∃ v tr, fetch o cid [] = .ok (v, tr) := by
  by_cases hne : pyStrip cid = ""
  · exact ⟨_, _, by unfold fetch; rw [if_pos hne]; rfl⟩
  · have hcard' : respObjOrFailB (o ⟨"GET", "cards/" ++ cid, fetchCardParams⟩)
        = true := hcard
    obtain ⟨cfs, hcg⟩ := trello_get_obj hcard'
    obtain ⟨lfs, hlg⟩ :=
      trello_get_obj (hl (pyStr ((List.lookup "idList" cfs).getD Json.null)))
    obtain ⟨bfs, hbg⟩ :=
      trello_get_obj (hb (pyStr ((List.lookup "idBoard" cfs).getD Json.null)))
    obtain ⟨cl, hcl⟩ := commentsStage_ok _ (trello_get_commentsOK hcm)
    cases hkm : keyMem "error" cfs with
    | true =>
      obtain ⟨ev, hev⟩ := lookup_of_keyMem hkm
      exact ⟨_, _, fetch_err_run o cid hne cfs hcg hkm ev hev⟩
    | false =>
      rw [fetch_run o cid hne cfs hcg hkm, hbg]
      cases hlo : List.lookup "idOrganization" bfs with
      | none =>
        rw [mBind_eval _ (orgStage_none o bfs hlo _), hlg]
        rw [detailRecord_run o cid cfs lfs bfs (Json.obj []) cl Json.null _ hcl
              (by simp [Json.truthy])]
        exact ⟨_, _, rfl⟩
      | some wv =>
        cases hwt : wv.truthy with
        | false =>
          rw [mBind_eval _ (orgStage_falsy o bfs wv hlo hwt _), hlg]
          rw [detailRecord_run o cid cfs lfs bfs (Json.obj []) cl Json.null _ hcl
                (by simp [Json.truthy])]
          exact ⟨_, _, rfl⟩
        | true =>
          obtain ⟨wfs, hwg⟩ := trello_get_obj (hw (pyStr wv))
          rw [mBind_eval _ (orgStage_some o bfs wv hlo hwt _), hlg, hwg]
          cases hwtr : (Json.obj wfs).truthy with
          | false =>
            rw [detailRecord_run o cid cfs lfs bfs (Json.obj wfs) cl Json.null _ hcl
                  (by simp [hwtr])]
            exact ⟨_, _, rfl⟩
          | true =>
            rw [detailRecord_run o cid cfs lfs bfs (Json.obj wfs) cl
                  ((List.lookup "displayName" wfs).getD (Json.str "")) _ hcl
                  (by rw [if_pos hwtr, pyGetD_obj])]
            exact ⟨_, _, rfl⟩

theorem overviewBoard_ok (o : Oracle) (b : Json) (tr : List Request) :
    ∃ es tr', overviewBoard o b tr = .ok (es, tr') := by
  cases b with
  | obj fs =>
    cases hkm : keyMem "id" fs with
    | false =>
      refine ⟨[], tr, ?_⟩
      simp [overviewBoard, Json.isDict, hkm, mPure]
    | true =>
      obtain ⟨bid, hbid⟩ := lookup_of_keyMem hkm
      unfold overviewBoard
      simp only [Json.isDict, hkm, Bool.and_self, if_true, mBind_liftE,
                 pySubscript, hbid, mBind_doGet]
      cases hit : pyIter (trello_get o ("boards/" ++ pyStr bid ++ "/lists")
          [("fields", Json.str "name,id,closed")]) with
      | error e =>
        exact ⟨[], tr ++ [⟨"GET", "boards/" ++ pyStr bid ++ "/lists",
          [("fields", Json.str "name,id,closed")]⟩], by simp [hit, mPure]⟩
      | ok litems =>
        exact ⟨collectEntries (Json.obj fs) litems,
          tr ++ [⟨"GET", "boards/" ++ pyStr bid ++ "/lists",
          [("fields", Json.str "name,id,closed")]⟩], by simp [hit, mPure]⟩
  | null => exact ⟨[], tr, rfl⟩
  | bool b' => exact ⟨[], tr, rfl⟩
  | num n => exact ⟨[], tr, rfl⟩
  | str s => exact ⟨[], tr, rfl⟩
  | arr xs => exact ⟨[], tr, rfl⟩

theorem overviewLoop_ok (o : Oracle) :
    ∀ (bs acc : List Json) (tr : List Request),
    ∃ res tr', overviewLoop o bs acc tr = .ok (res, tr') := by
  intro bs
  induction bs with
  | nil => intro acc tr; exact ⟨acc, tr, rfl⟩
  | cons b rest ih =>
    intro acc tr
    obtain ⟨es, tr1, hes⟩ := overviewBoard_ok o b tr
    obtain ⟨res, tr', hres⟩ := ih (acc ++ es) tr1
    exact ⟨res, tr', by simp [overviewLoop, mBind, hes, hres]⟩

theorem pyIter_ok_of_iterable {o : Oracle} {e : String} {ps : List (String × Json)}
    (h : iterableResp (o ⟨"GET", e, ps⟩) = true) :
    ∃ xs, pyIter (trello_get o e ps) = .ok xs := by
  rw [trello_get]
  cases hr : o ⟨"GET", e, ps⟩ with
  | failure m => exact ⟨_, rfl⟩
  | success body =>
    rw [hr] at h
    cases body with
    | arr xs => exact ⟨xs, rfl⟩
    | obj fs => exact ⟨_, rfl⟩
    | str s => exact ⟨_, rfl⟩
    | null => simp [iterableResp] at h
    | bool b => simp [iterableResp] at h
    | num n => simp [iterableResp] at h

theorem overview_ok (o : Oracle)
    (hbd : iterableResp (o ⟨"GET", "members/me/boards",
        [("fields", Json.str "name,id,closed,idOrganization,url")]⟩) = true) :
    ∃ v tr, overview o [] = .ok (v, tr) := by
  obtain ⟨bs, hbs⟩ := pyIter_ok_of_iterable hbd
  obtain ⟨res, tr', hres⟩ := overviewLoop_ok o bs []
    ([⟨"GET", "members/me/organizations", [("fields", Json.str "displayName,name,id")]⟩,
      ⟨"GET", "members/me/boards", [("fields", Json.str "name,id,closed,idOrganization,url")]⟩])
  unfold overview
  simp only [mBind_doGet, mBind_liftE, hbs, List.nil_append, List.cons_append]
  rw [mBind_eval _ hres]
  exact ⟨_, _, rfl⟩

/-- C9 amended: every tool invocation returns a response object and never
propagates a raised exception, provided successful upstream bodies are
well-formed: each search page body is an object whose cards value, when
present and truthy, is a list of card objects each carrying an id key and
whose desc, when present and truthy, is a string; the card, list, board
and organization bodies are objects; the comment-feed body is a list whose
entries have object-shaped memberCreator and data fields where present, or
an object, or a string; and the member-boards body is iterable (a list,
object or string). Outside this fragment the guarantee fails: a search
page card without an id raises KeyError (line 157), a card with a truthy
non-string desc raises TypeError when sliced (line 159), and a numeric
comment-feed body raises TypeError when iterated (line 210). -/
theorem C9_amended (o : Oracle) (q cid : String)
    (hsearch : ∀ i : Nat, searchRespOK (o (searchReq q 50 i)) = true)
    (hcard : respObjOrFailB (o (cardReq cid)) = true)
    (hl : ∀ e, respObjOrFailB (o ⟨"GET", "lists/" ++ e, listInfoParams⟩) = true)
    (hb : ∀ e, respObjOrFailB (o ⟨"GET", "boards/" ++ e, boardInfoParams⟩) = true)
    (hw : ∀ e, respObjOrFailB (o ⟨"GET", "organizations/" ++ e, orgInfoParams⟩) = true)
    (hcm : commentsRespOK (o (actionsReq cid)) = true)
    (hbd : iterableResp (o ⟨"GET", "members/me/boards",
        [("fields", Json.str "name,id,closed,idOrganization,url")]⟩) = true) :
    (∃ v tr, search o q [] = .ok (v, tr))
    ∧ (∃ v tr, fetch o cid [] = .ok (v, tr))
    ∧ (∃ v tr, overview o [] = .ok (v, tr))
    ∧ (∀ lid n d, ∃ v tr, create_card o lid n d [] = .ok (v, tr))
    ∧ (∀ n d du cl, ∃ v tr, update_card o cid n d du cl [] = .ok (v, tr))
    ∧ (∀ t, ∃ v tr, add_comment o cid t [] = .ok (v, tr))
    ∧ (∀ lid, ∃ v tr, move_card o cid lid [] = .ok (v, tr))
    ∧ (∃ v tr, archive_card o cid [] = .ok (v, tr)) :=
  ⟨search_ok o q hsearch,
   fetch_ok o cid hcard hl hb hw hcm,
   overview_ok o hbd,
   fun lid n d => ⟨_, _, rfl⟩,
   fun n d du cl => ⟨_, _, rfl⟩,
   fun t => ⟨_, _, rfl⟩,
   fun lid => ⟨_, _, rfl⟩,
   ⟨_, _, rfl⟩⟩

/-- C9 amended witness: an upstream that fails every request satisfies all
the well-formedness hypotheses, and every tool returns a response object. -/
theorem C9_amended_witness :
    (∃ v tr, search allFailO "q" [] = .ok (v, tr))
    ∧ (∃ v tr, fetch allFailO "abc" [] = .ok (v, tr))
    ∧ (∃ v tr, overview allFailO [] = .ok (v, tr))
    ∧ (∀ lid n d, ∃ v tr, create_card allFailO lid n d [] = .ok (v, tr))
    ∧ (∀ n d du cl, ∃ v tr, update_card allFailO "abc" n d du cl [] = .ok (v, tr))
    ∧ (∀ t, ∃ v tr, add_comment allFailO "abc" t [] = .ok (v, tr))
    ∧ (∀ lid, ∃ v tr, move_card allFailO "abc" lid [] = .ok (v, tr))
    ∧ (∃ v tr, archive_card allFailO "abc" [] = .ok (v, tr)) :=
  C9_amended allFailO "q" "abc" (fun _ => rfl) rfl (fun _ => rfl) (fun _ => rfl)
    (fun _ => rfl) rfl rfl

end TrelloSpec
